import Mathlib

/-!
Verification development for the single-request website auditor
(`api/analyze` handler): resource extractor, the five dimension analyzers
(performance, SEO, security, mobile, accessibility) and the weighted
score aggregator.

The JavaScript source scans raw HTML text with regular expressions.  We
embed that scanning shallowly: HTML is a `List Char`, and each regular
expression of the source is translated into a fuel-based (hence
structurally recursive, kernel-evaluable) scanner that reproduces the
left-to-right, non-overlapping match semantics of `String.matchAll` /
`String.match` / `RegExp.test` for the concrete patterns appearing in
the source.  Case-insensitive (`/i`) matching is modelled by ASCII case
folding, and the JavaScript whitespace class `\s` by its ASCII part;
the source only ever matches ASCII pattern text, so this is faithful
for every input.  `String.prototype.length` counts UTF-16 code units
while `List Char` counts code points; none of the properties verified
here depend on the difference (it only shifts the `>5000`/`>10000`
document-length thresholds on non-BMP input).

Machine numbers: scores are exact integers in the source (sums of
integer literals), modelled as `Int`.  The one place where IEEE-754
double precision is observable — the weighted total score — is modelled
exactly, by dyadic numbers with round-to-nearest-even (see `Dy`).
-/

/-! ## Character toolkit -/

/-- The double-quote character. -/
def dq : Char := Char.ofNat 34

/-- The single-quote character. -/
def sqC : Char := Char.ofNat 39

/-- The opening-brace character (used by the `@media[^{]*{` pattern). -/
def obr : Char := Char.ofNat 123

/-- Is `c` one of the two quote characters of the `["']` class? -/
def isQ (c : Char) : Bool := c = dq || c = sqC

/-- ASCII lower-casing, the case folding used by the `/i` regex flag on
the ASCII pattern text appearing in the source. -/
def lcChar (c : Char) : Char :=
  if 65 ≤ c.toNat ∧ c.toNat ≤ 90 then Char.ofNat (c.toNat + 32) else c

/-- ASCII lower-casing of a character list (`String.prototype.toLowerCase`
restricted to ASCII, as applied to the viewport content). -/
def lcL (s : List Char) : List Char := s.map lcChar

/-- The ASCII part of the JavaScript `\s` whitespace class. -/
def isWs (c : Char) : Bool :=
  c = ' ' || c = Char.ofNat 9 || c = Char.ofNat 10 || c = Char.ofNat 13 ||
  c = Char.ofNat 11 || c = Char.ofNat 12

/-- Digit test for the `\d` class. -/
def isDig (c : Char) : Bool := 48 ≤ c.toNat && c.toNat ≤ 57

/-- Letter test for the `[a-zA-Z]` class. -/
def isAl (c : Char) : Bool :=
  (65 ≤ c.toNat && c.toNat ≤ 90) || (97 ≤ c.toNat && c.toNat ≤ 122)

/-- Character class of the e-mail regex local part `[a-zA-Z0-9._%+-]`. -/
def isLocalC (c : Char) : Bool :=
  isAl c || isDig c || c = '.' || c = '_' || c = '%' || c = '+' || c = '-'

/-- Character class of the e-mail regex domain part `[a-zA-Z0-9.-]`. -/
def isDomC (c : Char) : Bool := isAl c || isDig c || c = '.' || c = '-'

/-- Numeric value of a (non-empty) digit run, i.e. `parseInt` on the
string captured by a `(\d+)` group. -/
def digitsToNat (ds : List Char) : Nat :=
  ds.foldl (fun n c => n * 10 + (c.toNat - 48)) 0

/-- Case-insensitive prefix test: `pat` (given already lower-cased)
matches the beginning of `s` up to ASCII case. -/
def pfxCI : List Char → List Char → Bool
  | [], _ => true
  | _ :: _, [] => false
  | p :: ps, c :: cs => lcChar c = p && pfxCI ps cs

/-- Case-sensitive prefix test. -/
def pfxCS : List Char → List Char → Bool
  | [], _ => true
  | _ :: _, [] => false
  | p :: ps, c :: cs => c = p && pfxCS ps cs

/-- Case-insensitive substring test, the model of `/pat/i.test(s)` for a
pattern with no metacharacters. -/
def subCI (pat : List Char) : List Char → Bool
  | [] => pfxCI pat []
  | s@(_ :: rest) => pfxCI pat s || subCI pat rest

/-- Case-sensitive substring test, the model of
`String.prototype.includes`. -/
def subCS (pat : List Char) : List Char → Bool
  | [] => pfxCS pat []
  | s@(_ :: rest) => pfxCS pat s || subCS pat rest

/-- Position of the first case-insensitive occurrence of `pat` in `s`. -/
def findCI (pat : List Char) : List Char → Option Nat
  | [] => if pfxCI pat [] then some 0 else none
  | s@(_ :: rest) =>
    if pfxCI pat s then some 0
    else (findCI pat rest).map (· + 1)

/-- The `[^>]*` window: the maximal run of non-`>` characters. -/
def win (s : List Char) : List Char := s.takeWhile (fun c => c ≠ '>')

/-- The four quote assignments of a `key=["']value["']` pattern (the two
`["']` classes are matched independently, so mixed quotes are allowed). -/
def quoteVars (key value : List Char) : List (List Char) :=
  [key ++ dq :: value ++ [dq], key ++ dq :: value ++ [sqC],
   key ++ sqC :: value ++ [dq], key ++ sqC :: value ++ [sqC]]

/-- Does `s` contain `key=["']value["']` up to case? -/
def hasAttrVal (key value : List Char) (s : List Char) : Bool :=
  (quoteVars key value).any (fun v => subCI v s)

/-! ## Tag scanning

`tagScanF pat fuel s` models `s.matchAll(/<tag[^>]*>/gi)`: every
case-insensitive occurrence of the literal opener `pat` (e.g. `<img`)
that is followed by a `>` yields the tag text from the opener up to and
including the first subsequent `>`; scanning resumes after the match
(non-overlapping), and if no `>` remains no further match is possible,
exactly as for the backtracking engine. -/

def tagScanF (pat : List Char) : Nat → List Char → List (List Char)
  | 0, _ => []
  | _ + 1, [] => []
  | fuel + 1, s@(_ :: rest) =>
    if pfxCI pat s then
      let w := win (s.drop pat.length)
      let e := pat.length + w.length
      if e < s.length then
        s.take (e + 1) :: tagScanF pat fuel (s.drop (e + 1))
      else []
    else tagScanF pat fuel rest

/-- All matches of `/<pat[^>]*>/gi` over an HTML string. -/
def tagScan (pat : String) (html : String) : List (List Char) :=
  tagScanF pat.toList html.toList.length html.toList

/-- Existence of a match of `/<pat[^>]*>/gi`. -/
def tagExists (pat : String) (html : String) : Bool :=
  !(tagScan pat html).isEmpty

/-- Model of `/<tag[^>]*inner/i.test(html)`: some occurrence of the
opener whose `[^>]*` window reaches one of the `inner` variants. -/
def tagHasF (pat : List Char) (inners : List (List Char)) :
    Nat → List Char → Bool
  | 0, _ => false
  | _ + 1, [] => false
  | fuel + 1, s@(_ :: rest) =>
    (pfxCI pat s && inners.any (fun v => subCI v (win (s.drop pat.length))))
      || tagHasF pat inners fuel rest

/-- Model of `/<tag[^>]*key=["']value["']/i.test(html)`. -/
def tagHasAttr (tagPat key value : String) (html : String) : Bool :=
  tagHasF tagPat.toList (quoteVars key.toList value.toList)
    html.toList.length html.toList

/-! ## Attribute captures inside a matched tag text -/

/-- At a position directly after `key=`, capture a `["']([^"']*)["']`
value: an opening quote, the run of non-quote characters (required
non-empty unless `allowEmpty`), and a closing quote. -/
def capVal (allowEmpty : Bool) : List Char → Option (List Char)
  | [] => none
  | q :: rest =>
    if isQ q then
      let v := rest.takeWhile (fun c => !isQ c)
      if (allowEmpty || decide (0 < v.length)) && decide (v.length < rest.length)
      then some v else none
    else none

/-- Leftmost capture of `/key=["']([^"']*)["']/i` inside `s` (scanning
continues past occurrences of `key=` not followed by a quoted value,
as the backtracking engine does). -/
def attrCapF (key : List Char) (allowEmpty : Bool) :
    Nat → List Char → Option (List Char)
  | 0, _ => none
  | _ + 1, [] => none
  | fuel + 1, s@(_ :: rest) =>
    if pfxCI key s then
      match capVal allowEmpty (s.drop key.length) with
      | some v => some v
      | none => attrCapF key allowEmpty fuel rest
    else attrCapF key allowEmpty fuel rest

/-- `attrCapF` applied with enough fuel. -/
def attrCap (key : String) (allowEmpty : Bool) (s : List Char) :
    Option (List Char) :=
  attrCapF key.toList allowEmpty s.length s

/-- At a position directly after `key=`, capture a `["']?(\d+)` value:
an optional quote, then a required digit run. -/
def capNum : List Char → Option Nat
  | [] => none
  | s@(c :: rest) =>
    let r := if isQ c then rest else s
    let ds := r.takeWhile isDig
    if 0 < ds.length then some (digitsToNat ds) else none

/-- Leftmost capture of `/key=["']?(\d+)/i` inside `s`. -/
def attrNumF (key : List Char) : Nat → List Char → Option Nat
  | 0, _ => none
  | _ + 1, [] => none
  | fuel + 1, s@(_ :: rest) =>
    if pfxCI key s then
      match capNum (s.drop key.length) with
      | some v => some v
      | none => attrNumF key fuel rest
    else attrNumF key fuel rest

/-- `attrNumF` applied with enough fuel. -/
def attrNum (key : String) (s : List Char) : Option Nat :=
  attrNumF key.toList s.length s

/-! ## Resource extractor (`extractResources`) -/

/-- A script record pushed by `extractResources`. -/
structure ScriptRef where
  src : Option String
  isInline : Bool
  isAsync : Bool
  isDefer : Bool
  isModule : Bool
deriving Repr, DecidableEq

/-- A stylesheet record pushed by `extractResources`. -/
structure StylesheetRef where
  href : String
  isPreload : Bool
deriving Repr, DecidableEq

/-- An image record pushed by `extractResources`. -/
structure ImageRef where
  src : Option String
  hasAlt : Bool
  altText : Option String
  hasEmptyAlt : Bool
  hasDimensions : Bool
  width : Option Nat
  height : Option Nat
  hasLazyLoading : Bool
  hasSrcset : Bool
  isWebP : Bool
  isAvif : Bool
  isModernFormat : Bool
deriving Repr, DecidableEq

/-- An iframe record pushed by `extractResources`. -/
structure IframeRef where
  src : Option String
  hasLazyLoading : Bool
deriving Repr, DecidableEq

/-- The resource inventory returned by `extractResources`.  The `fonts`
class is declared in the source but never filled. -/
structure Resources where
  scripts : List ScriptRef
  stylesheets : List StylesheetRef
  images : List ImageRef
  fonts : List String
  iframes : List IframeRef
deriving Repr, DecidableEq

/-- The `src` capture of the script pattern
`/<script[^>]*(?:src=["']([^"']+)["'])?[^>]*>/gi`, evaluated on a match.

The first greedy `[^>]*` consumes every character up to the closing `>`
of the tag; the optional group then matches the empty string at that
position (an optional group prefers matching, fails on `>`, and is
skipped), the second `[^>]*` matches the empty string, and `>` closes
the match.  This first backtracking path always succeeds, so the engine
never re-tries a shorter `[^>]*` and the capture group never
participates in a match: `match[1]` is `undefined` for every script tag
of every input. -/
def scriptSrcCapture (_tag : List Char) : Option String := none

/-- The record built for one `<script …>` match (`match[0]` is the tag
text up to the first `>`; `async`/`defer` are substring tests on it). -/
def mkScriptRef (tag : List Char) : ScriptRef :=
  let srcM := scriptSrcCapture tag
  { src := srcM
    isInline := srcM.isNone
    isAsync := subCI "async".toList tag
    isDefer := subCI "defer".toList tag
    isModule := hasAttrVal "type=".toList "module".toList tag }

/-- Search for the first of the quote variants `vs` in `w` and capture a
`href=["']([^"']+)["']` value after it. -/
def relThenHref (w : List Char) : List (List Char) → Option (List Char)
  | [] => none
  | v :: vs =>
    match findCI v w with
    | some i =>
      match attrCap "href=" false (w.drop (i + v.length)) with
      | some h => some h
      | none => relThenHref w vs
    | none => relThenHref w vs

/-- The capture of the stylesheet pattern
`/<link[^>]*rel=["']stylesheet["'][^>]*href=["']([^"']+)["'][^>]*>/gi`
inside the window of a matched `<link …>` tag: `rel=["']stylesheet["']`
must occur, and `href=["']…["']` must occur after it (the pattern is
order-sensitive: `href` before `rel` does not match).  The model checks
the first occurrence of each quote variant, which coincides with the
backtracking engine whenever the tag carries a single `rel`
attribute. -/
def stylesheetHref (tag : List Char) : Option (List Char) :=
  relThenHref (win (tag.drop 5)) (quoteVars "rel=".toList "stylesheet".toList)

/-- The record built for one stylesheet match. -/
def mkStylesheetRef (tag : List Char) (href : List Char) : StylesheetRef :=
  { href := ⟨href⟩
    isPreload := hasAttrVal "rel=".toList "preload".toList tag }

/-- The record built for one `<img …>` match. -/
def mkImageRef (tag : List Char) : ImageRef :=
  let srcM := attrCap "src=" false tag
  let altM := attrCap "alt=" true tag
  let widthM := attrNum "width=" tag
  let heightM := attrNum "height=" tag
  let loadingM := attrCap "loading=" false tag
  { src := srcM.map (⟨·⟩)
    hasAlt := altM.isSome
    altText := altM.map (⟨·⟩)
    hasEmptyAlt := altM = some []
    hasDimensions := widthM.isSome && heightM.isSome
    width := widthM
    height := heightM
    hasLazyLoading := loadingM = some "lazy".toList
    hasSrcset := subCI "srcset=".toList tag
    isWebP := srcM.isSome && subCI ".webp".toList (srcM.getD [])
    isAvif := srcM.isSome && subCI ".avif".toList (srcM.getD [])
    isModernFormat := srcM.isSome &&
      (subCI ".webp".toList (srcM.getD []) || subCI ".avif".toList (srcM.getD [])) }

/-- The record built for one `<iframe …>` match. -/
def mkIframeRef (tag : List Char) : IframeRef :=
  { src := (attrCap "src=" false tag).map (⟨·⟩)
    hasLazyLoading := hasAttrVal "loading=".toList "lazy".toList tag }

/-- `extractResources(html, baseUrl)` (the base URL argument is unused in
the source). -/
def extractResources (html : String) : Resources :=
  { scripts := (tagScan "<script" html).map mkScriptRef
    stylesheets := (tagScan "<link" html).filterMap
      (fun tag => (stylesheetHref tag).map (mkStylesheetRef tag))
    images := (tagScan "<img" html).map mkImageRef
    fonts := []
    iframes := (tagScan "<iframe" html).map mkIframeRef }

/-! ## Counting scanners for the CSS/text patterns -/

/-- Generic `matchAll` driver: try the matcher at every position, count
matches, and resume after each match (payload `true` counts, so a
post-filter on match text is fused into the matcher). -/
def scanCountPF (m : List Char → Option (Bool × Nat)) :
    Nat → List Char → Nat
  | 0, _ => 0
  | _ + 1, [] => 0
  | fuel + 1, s@(_ :: rest) =>
    match m s with
    | some (b, k) => (if b then 1 else 0) + scanCountPF m fuel (s.drop (max k 1))
    | none => scanCountPF m fuel rest

/-- Matcher for `/font-size:\s*([0-9]+)px/gi`; payload: captured size
below 12 (the `verySmallFonts` post-filter). -/
def fontSizeM (s : List Char) : Option (Bool × Nat) :=
  if pfxCI "font-size:".toList s then
    let r := s.drop 10
    let w := r.takeWhile isWs
    let r2 := r.drop w.length
    let ds := r2.takeWhile isDig
    if 0 < ds.length && pfxCI "px".toList (r2.drop ds.length) then
      some (digitsToNat ds < 12, 10 + w.length + ds.length + 2)
    else none
  else none

/-- Matcher for `/padding:\s*[0-3]px/gi`. -/
def paddingM (s : List Char) : Option (Bool × Nat) :=
  if pfxCI "padding:".toList s then
    let r := s.drop 8
    let w := r.takeWhile isWs
    match r.drop w.length with
    | c :: r2 =>
      if (48 ≤ c.toNat && c.toNat ≤ 51) && pfxCI "px".toList r2 then
        some (true, 8 + w.length + 3)
      else none
    | [] => none
  else none

/-- Matcher for `/width:\s*\d{4,}px/gi`; payload: captured number above
500 (the `largeFixedWidths` post-filter — every 4-digit number is, but
the source re-parses and compares). -/
def fixedWidthM (s : List Char) : Option (Bool × Nat) :=
  if pfxCI "width:".toList s then
    let r := s.drop 6
    let w := r.takeWhile isWs
    let r2 := r.drop w.length
    let ds := r2.takeWhile isDig
    if 4 ≤ ds.length && pfxCI "px".toList (r2.drop ds.length) then
      some (500 < digitsToNat ds, 6 + w.length + ds.length + 2)
    else none
  else none

/-- Matcher for `/@media[^{]*\{/gi`; payload: the match text passes the
`/max-width|min-width|screen/i` mobile-relevance filter. -/
def mediaM (s : List Char) : Option (Bool × Nat) :=
  if pfxCI "@media".toList s then
    let r := s.drop 6
    let w := r.takeWhile (fun c => c ≠ obr)
    if w.length < r.length then
      let mt := s.take (6 + w.length + 1)
      some (subCI "max-width".toList mt || subCI "min-width".toList mt ||
            subCI "screen".toList mt, 6 + w.length + 1)
    else none
  else none

/-- Matcher for `/color:\s*#[def][def][def]/gi`. -/
def lightColorM (s : List Char) : Option (Bool × Nat) :=
  if pfxCI "color:".toList s then
    let r := s.drop 6
    let w := r.takeWhile isWs
    match r.drop w.length with
    | h :: c1 :: c2 :: c3 :: _ =>
      let isDEF : Char → Bool := fun c => "defDEF".toList.contains c
      if h = '#' && isDEF c1 && isDEF c2 && isDEF c3 then
        some (true, 6 + w.length + 4)
      else none
    | _ => none
  else none

/-- Matcher for `/tabindex=["'][1-9]/gi`. -/
def tabindexM (s : List Char) : Option (Bool × Nat) :=
  if pfxCI "tabindex=".toList s then
    match s.drop 9 with
    | q :: d :: _ =>
      if isQ q && (49 ≤ d.toNat && d.toNat ≤ 57) then some (true, 11) else none
    | _ => none
  else none

/-- Matcher for `/<div[^>]*onclick/gi` (and the `<span` variant):
`onclick` must occur in the tag window. -/
def onclickM (openPat : List Char) (s : List Char) : Option (Bool × Nat) :=
  if pfxCI openPat s then
    match findCI "onclick".toList (win (s.drop openPat.length)) with
    | some i => some (true, openPat.length + i + 7)
    | none => none
  else none

/-- Matcher for `/http:\/\/(?!localhost)[^"'\s>]+/gi` (mixed-content
detection). -/
def mixedM (s : List Char) : Option (Bool × Nat) :=
  if pfxCI "http://".toList s && !pfxCI "localhost".toList (s.drop 7) then
    let run := (s.drop 7).takeWhile (fun c => !isQ c && c ≠ '>' && !isWs c)
    if 0 < run.length then some (true, 7 + run.length) else none
  else none

/-- Domain part of the e-mail regex after the `@`: the greedy
`[a-zA-Z0-9.-]+` backtracks to the last `.` of the domain run that is
preceded by at least one domain character and followed by at least two
letters; returns the matched length within the run. -/
def emailDomSplit (dr : List Char) : Option Nat :=
  (List.range dr.length).reverse.findSome? (fun k =>
    if 0 < k && dr.getD k ' ' = '.' then
      let lrun := ((dr.drop (k + 1)).takeWhile isAl).length
      if 2 ≤ lrun then some (k + 1 + lrun) else none
    else none)

/-- Matcher for `/[a-zA-Z0-9._%+-]+@[a-zA-Z0-9.-]+\.[a-zA-Z]{2,}/g`. -/
def emailM (s : List Char) : Option (Bool × Nat) :=
  let ls := s.takeWhile isLocalC
  if 0 < ls.length then
    match s.drop ls.length with
    | c :: dom =>
      if c = '@' then
        match emailDomSplit (dom.takeWhile isDomC) with
        | some dl => some (true, ls.length + 1 + dl)
        | none => none
      else none
    | [] => none
  else none

/-- Matcher for `/<a[^>]*href=["']\/[^"']*["']/gi` (internal links). -/
def intLinkM (s : List Char) : Option (Bool × Nat) :=
  if pfxCI "<a".toList s then
    let w := win (s.drop 2)
    let v1 := "href=".toList ++ [dq, '/']
    let v2 := "href=".toList ++ [sqC, '/']
    let pos := match findCI v1 w, findCI v2 w with
      | some i, some j => some (min i j)
      | some i, none => some i
      | none, some j => some j
      | none, none => none
    match pos with
    | some i =>
      let r := s.drop (2 + i + 7)
      let v := r.takeWhile (fun c => !isQ c)
      if v.length < r.length then some (true, 2 + i + 7 + v.length + 1) else none
    | none => none
  else none

/-- Count of matches over an HTML string. -/
def countScan (m : List Char → Option (Bool × Nat)) (html : String) : Nat :=
  scanCountPF m html.toList.length html.toList

/-! ## Paired-tag scanning (`/<tag[^>]*>([\s\S]*?)<\/tag>/gi`) -/

/-- All full matches of an open-tag/close-tag pair with lazy middle: an
opener with its `>` followed by the first subsequent occurrence of the
closer; non-overlapping, resuming after each match. -/
def pairScanF (openPat closePat : List Char) : Nat → List Char → List (List Char)
  | 0, _ => []
  | _ + 1, [] => []
  | fuel + 1, s@(_ :: rest) =>
    if pfxCI openPat s then
      let w := win (s.drop openPat.length)
      let e := openPat.length + w.length
      if e < s.length then
        match findCI closePat (s.drop (e + 1)) with
        | some j =>
          let len := e + 1 + j + closePat.length
          s.take len :: pairScanF openPat closePat fuel (s.drop len)
        | none => []
      else []
    else pairScanF openPat closePat fuel rest

/-- `pairScanF` over an HTML string. -/
def pairScan (openPat closePat : String) (html : String) : List (List Char) :=
  pairScanF openPat.toList closePat.toList html.toList.length html.toList

/-- The capture group of a paired match: the text between the opener's
`>` and the closer. -/
def pairInner (closeLen : Nat) (full : List Char) : List Char :=
  let mid := full.drop ((full.takeWhile (fun c => c ≠ '>')).length + 1)
  mid.take (mid.length - closeLen)

/-- The remainder of the document after the first complete opener
`<pat…>`; `none` when no opener completes.  Used for the lazy
`/<style[^>]*>[\s\S]*?(body|…)/i` test. -/
def tagRemF (pat : List Char) : Nat → List Char → Option (List Char)
  | 0, _ => none
  | _ + 1, [] => none
  | fuel + 1, s@(_ :: rest) =>
    if pfxCI pat s then
      let w := win (s.drop pat.length)
      let e := pat.length + w.length
      if e < s.length then some (s.drop (e + 1)) else none
    else tagRemF pat fuel rest

/-! ## Misc string helpers -/

/-- `String.prototype.trim` (ASCII whitespace part). -/
def trimL (s : List Char) : List Char :=
  (((s.dropWhile isWs).reverse).dropWhile isWs).reverse

/-- `link.replace(/<[^>]*>/g, '')`: delete every complete `<…>` span;
an unterminated `<` is not a match and is kept verbatim. -/
def stripTagsF : Nat → List Char → List Char
  | 0, s => s
  | _ + 1, [] => []
  | fuel + 1, c :: rest =>
    if c = '<' then
      let w := rest.takeWhile (fun x => x ≠ '>')
      if w.length < rest.length then stripTagsF fuel (rest.drop (w.length + 1))
      else c :: rest
    else c :: stripTagsF fuel rest

/-! ## Meta-tag attribute-then-capture scanners -/

/-- Within a tag window (scan stops at `>`), find `key=` and capture its
quoted value; the captured `[^"']*` value itself may run past a `>`,
as the quote class does not exclude it. -/
def keyCapInWinF (key : List Char) (allowEmpty : Bool) :
    Nat → List Char → Option (List Char)
  | 0, _ => none
  | _ + 1, [] => none
  | fuel + 1, s@(c :: rest) =>
    if c = '>' then none
    else if pfxCI key s then
      match capVal allowEmpty (s.drop key.length) with
      | some v => some v
      | none => keyCapInWinF key allowEmpty fuel rest
    else keyCapInWinF key allowEmpty fuel rest

/-- Within a tag window, find one of the `v1` attribute variants and
then capture a `key2=["']…["']` value after it (still starting inside
the window), the shape of
`/<tag[^>]*k1=["']v1["'][^>]*key2=["'](…)["']/i`. -/
def seqCapF (v1 : List (List Char)) (key2 : List Char) (allowEmpty : Bool) :
    Nat → List Char → Option (List Char)
  | 0, _ => none
  | _ + 1, [] => none
  | fuel + 1, s@(c :: rest) =>
    if c = '>' then none
    else
      match v1.find? (fun v => pfxCI v s) with
      | some v =>
        match keyCapInWinF key2 allowEmpty (s.drop v.length).length (s.drop v.length) with
        | some cap => some cap
        | none => seqCapF v1 key2 allowEmpty fuel rest
      | none => seqCapF v1 key2 allowEmpty fuel rest

/-- Document-level driver for `seqCapF`: first tag occurrence for which
the attribute sequence completes. -/
def tagSeqCapF (tagPat : List Char) (v1 : List (List Char)) (key2 : List Char)
    (allowEmpty : Bool) : Nat → List Char → Option (List Char)
  | 0, _ => none
  | _ + 1, [] => none
  | fuel + 1, s@(_ :: rest) =>
    if pfxCI tagPat s then
      match seqCapF v1 key2 allowEmpty (s.drop tagPat.length).length (s.drop tagPat.length) with
      | some cap => some cap
      | none => tagSeqCapF tagPat v1 key2 allowEmpty fuel rest
    else tagSeqCapF tagPat v1 key2 allowEmpty fuel rest

/-- Capture of `/<tag[^>]*k1=["']v1["'][^>]*key2=["'](…)["']/i` over a
document. -/
def tagAttrThenCap (tagPat k1 v1 key2 : String) (allowEmpty : Bool)
    (html : String) : Option (List Char) :=
  tagSeqCapF tagPat.toList (quoteVars k1.toList v1.toList) key2.toList
    allowEmpty html.toList.length html.toList

/-- Capture of `/<tag[^>]*key=["'](…)["']/i` over a document (used for
the `<html … lang="…">` capture). -/
def tagKeyCapF (tagPat key : List Char) (allowEmpty : Bool) :
    Nat → List Char → Option (List Char)
  | 0, _ => none
  | _ + 1, [] => none
  | fuel + 1, s@(_ :: rest) =>
    if pfxCI tagPat s then
      match keyCapInWinF key allowEmpty (s.drop tagPat.length).length (s.drop tagPat.length) with
      | some cap => some cap
      | none => tagKeyCapF tagPat key allowEmpty fuel rest
    else tagKeyCapF tagPat key allowEmpty fuel rest

/-- `tagKeyCapF` over a document. -/
def tagKeyCap (tagPat key : String) (allowEmpty : Bool) (html : String) :
    Option (List Char) :=
  tagKeyCapF tagPat.toList key.toList allowEmpty html.toList.length html.toList

/-- Like `capVal`, but also return the remainder after the closing
quote (for patterns that continue after the capture). -/
def capValR (allowEmpty : Bool) : List Char → Option (List Char × List Char)
  | [] => none
  | q :: rest =>
    if isQ q then
      let v := rest.takeWhile (fun c => !isQ c)
      if (allowEmpty || decide (0 < v.length)) && decide (v.length < rest.length)
      then some (v, rest.drop (v.length + 1)) else none
    else none

/-- Within a tag window, capture `key1=["'](…)["']` and require one of
the `v2` attribute variants after the closing quote (within the window
that continues there): the shape of the reversed meta-description
pattern `/<meta[^>]*content=["'](…)["'][^>]*name=["']description["']/i`. -/
def capThenAttrF (key1 : List Char) (allowEmpty : Bool) (v2 : List (List Char)) :
    Nat → List Char → Option (List Char)
  | 0, _ => none
  | _ + 1, [] => none
  | fuel + 1, s@(c :: rest) =>
    if c = '>' then none
    else if pfxCI key1 s then
      match capValR allowEmpty (s.drop key1.length) with
      | some (v, after) =>
        if v2.any (fun p => subCI p (win after)) then some v
        else capThenAttrF key1 allowEmpty v2 fuel rest
      | none => capThenAttrF key1 allowEmpty v2 fuel rest
    else capThenAttrF key1 allowEmpty v2 fuel rest

/-- Document-level driver for `capThenAttrF`. -/
def tagCapThenAttrF (tagPat key1 : List Char) (allowEmpty : Bool)
    (v2 : List (List Char)) : Nat → List Char → Option (List Char)
  | 0, _ => none
  | _ + 1, [] => none
  | fuel + 1, s@(_ :: rest) =>
    if pfxCI tagPat s then
      match capThenAttrF key1 allowEmpty v2 (s.drop tagPat.length).length (s.drop tagPat.length) with
      | some cap => some cap
      | none => tagCapThenAttrF tagPat key1 allowEmpty v2 fuel rest
    else tagCapThenAttrF tagPat key1 allowEmpty v2 fuel rest

/-! ## Special-purpose tests -/

/-- `/<style[^>]*>[\s\S]*?(body|html|header|nav|hero|main)/i.test`: a
complete `<style …>` opener followed (lazily, so anywhere after)
by one of the keywords.  Existence is equivalent to one of the keywords
occurring after the first complete opener. -/
def hasCriticalCSS (html : String) : Bool :=
  match tagRemF "<style".toList html.toList.length html.toList with
  | some rem =>
    ["body", "html", "header", "nav", "hero", "main"].any
      (fun k => subCI k.toList rem)
  | none => false

/-- `/skip.*(link|nav|content)/i.test`: `skip` with one of the three
words later on the same line (`.` does not match line terminators). -/
def skipTextF : Nat → List Char → Bool
  | 0, _ => false
  | _ + 1, [] => false
  | fuel + 1, s@(_ :: rest) =>
    (pfxCI "skip".toList s &&
      (let seg := (s.drop 4).takeWhile (fun c => c ≠ Char.ofNat 10 && c ≠ Char.ofNat 13)
       subCI "link".toList seg || subCI "nav".toList seg || subCI "content".toList seg))
      || skipTextF fuel rest

/-- The skip-link anchor test
`/<a[^>]*href=["']#(main|content|skip)[^"']*["'][^>]*>/i`: some `<a …>`
tag whose window contains `href=` with a quoted value starting
`#main`/`#content`/`#skip` (the closing quote is inside the tag text
unless the attribute value itself contains a `>`). -/
def skipAnchor (html : String) : Bool :=
  (tagScan "<a" html).any (fun tag =>
    (["main", "content", "skip"].any (fun word =>
      [dq, sqC].any (fun q =>
        match findCI ("href=".toList ++ q :: '#' :: word.toList) tag with
        | some i =>
          let r := tag.drop (i + 6 + 1 + word.length)
          let v := r.takeWhile (fun c => !isQ c)
          v.length < r.length
        | none => false))))

/-- `/outline:\s*none|outline:\s*0(?!\d)/gi.test`. -/
def outlineNoneF : Nat → List Char → Bool
  | 0, _ => false
  | _ + 1, [] => false
  | fuel + 1, s@(_ :: rest) =>
    (if pfxCI "outline:".toList s then
      let r := s.drop 8
      let r2 := r.drop (r.takeWhile isWs).length
      pfxCI "none".toList r2 ||
        (match r2 with
         | c :: r3 => c = '0' && !(match r3 with | d :: _ => isDig d | [] => false)
         | [] => false)
     else false) || outlineNoneF fuel rest

/-- `/\d+\.\d+/.test`: existence is equivalent to a digit, a dot and a
digit in direct succession. -/
def hasVersionNum : List Char → Bool
  | a :: b :: c :: rest => (isDig a && b = '.' && isDig c) || hasVersionNum (b :: c :: rest)
  | _ => false

/-! ## Findings and scores -/

/-- One finding object.  Issues are pushed as
`{ severity: …, message: … }` and positive findings as
`{ type: 'success', message: … }`; the two shapes carry different keys,
which the optional fields model (`none` = key absent). -/
structure Finding where
  severity : Option String
  type : Option String
  message : String
deriving Repr, DecidableEq

/-- An `issues.push({ severity, message })` object. -/
def issueF (sev msg : String) : Finding :=
  { severity := some sev, type := none, message := msg }

/-- A `details.push({ type: 'success', message })` object. -/
def successF (msg : String) : Finding :=
  { severity := none, type := some "success", message := msg }

/-- A conditional `push`. -/
def optF (b : Bool) (f : Finding) : List Finding := if b then [f] else []

/-- `Math.max(0, Math.min(100, score))`. -/
def clamp (x : Int) : Int := max 0 (min 100 x)

/-! ## Performance analyzer (`analyzePerformance`) -/

/-- `estimateInlineCSS`: total length of all
`/<style[^>]*>([\s\S]*?)<\/style>/gi` matches. -/
def estimateInlineCSS (html : String) : Nat :=
  ((pairScan "<style" "</style>" html).map List.length).sum

/-- `Math.round(n / 1024)` for a natural byte count. -/
def htmlKB (n : Nat) : Nat := (n + 512) / 1024

/-- `resources.scripts.filter(s => !s.isInline && !s.isAsync && !s.isDefer).length`. -/
def blockingScriptCount (scripts : List ScriptRef) : Nat :=
  (scripts.filter (fun s => !s.isInline && !s.isAsync && !s.isDefer)).length

/-- Response-time deduction (−25/−15/−8). -/
def rtDed (rt : Nat) : Nat :=
  if 3000 < rt then 25 else if 1500 < rt then 15 else if 600 < rt then 8 else 0

/-- Document-size deduction (−15/−10/−5). -/
def sizeDed (n : Nat) : Nat :=
  if 500000 < n then 15 else if 200000 < n then 10 else if 100000 < n then 5 else 0

/-- Render-blocking script deduction (−12/−6). -/
def blockDed (b : Nat) : Nat := if 5 < b then 12 else if 2 < b then 6 else 0

/-- Total script-count deduction (−8/−4). -/
def totScriptsDed (t : Nat) : Nat := if 25 < t then 8 else if 15 < t then 4 else 0

/-- External stylesheet-count deduction (−8/−4). -/
def extSheetsDed (e : Nat) : Nat := if 8 < e then 8 else if 4 < e then 4 else 0

/-- Inline-CSS size deduction (−7). -/
def inlineCSSDed (sz : Nat) : Nat := if 50000 < sz then 7 else 0

/-- `images.filter(i => !i.hasDimensions).length`. -/
def imgsNoDim (images : List ImageRef) : Nat :=
  (images.filter (fun i => !i.hasDimensions)).length

/-- `images.filter(i => !i.hasLazyLoading && images.indexOf(i) > 2).length`
(each pushed record is a distinct object, so `indexOf` is its
position). -/
def imgsNoLazy (images : List ImageRef) : Nat :=
  (images.enum.filter (fun p => !p.2.hasLazyLoading && decide (2 < p.1))).length

/-- `images.filter(i => i.src && !i.isModernFormat).length`. -/
def imgsNoModern (images : List ImageRef) : Nat :=
  (images.filter (fun i => i.src.isSome && !i.isModernFormat)).length

/-- `images.filter(i => !i.hasSrcset).length`. -/
def imgsNoSrcset (images : List ImageRef) : Nat :=
  (images.filter (fun i => !i.hasSrcset)).length

/-- The image-optimization deduction block, guarded by
`images.length > 0`; the four inner deductions are independent. -/
def perfImgDed (images : List ImageRef) : Nat :=
  if 0 < images.length then
    (if 3 < imgsNoDim images then 6 else 0) +
    (if 5 < imgsNoLazy images then 5 else 0) +
    (if 5 < imgsNoModern images && 3 < images.length then 5 else 0) +
    (if 5 < imgsNoSrcset images && 3 < images.length then 4 else 0)
  else 0

/-- `/<link[^>]*rel=["']preconnect["']/i.test(html)`. -/
def hasPreconnect (html : String) : Bool := tagHasAttr "<link" "rel=" "preconnect" html

/-- `/<link[^>]*rel=["']dns-prefetch["']/i.test(html)`. -/
def hasDNSPrefetch (html : String) : Bool := tagHasAttr "<link" "rel=" "dns-prefetch" html

/-- Critical-rendering-path deduction (−3). -/
def criticalDed (html : String) (extSheets : Nat) : Nat :=
  if !hasCriticalCSS html && 0 < extSheets then 3 else 0

/-- Preconnect/dns-prefetch deduction (−2). -/
def preconnectDed (html : String) : Nat :=
  if !hasPreconnect html && !hasDNSPrefetch html then 2 else 0

/-- `new URL(html).hostname || ''`, the page-hostname lookup that is
(mistakenly) applied to the HTML body text.  `new URL` throws on input
without a valid scheme; modelled as `Except`.  This call sits behind
`s.src &&` in a filter over the extracted scripts, and the extractor
never produces a non-null `src` (see `scriptSrcCapture`), so no
reachable path evaluates it; its internal accuracy is therefore
immaterial, and the model keeps only the scheme-validity check and a
simple authority extraction. -/
def urlHostname (s : String) : Except String String :=
  let cs := s.toList
  let scheme := cs.takeWhile (fun c => c ≠ ':')
  if 0 < scheme.length ∧ scheme.length < cs.length ∧
      isAl (scheme.headI) ∧
      (scheme.all (fun c => isAl c || isDig c || c = '+' || c = '-' || c = '.')) then
    let rest := cs.drop (scheme.length + 1)
    if pfxCS "//".toList rest then
      let auth := (rest.drop 2).takeWhile (fun c => c ≠ '/' && c ≠ '?' && c ≠ '#')
      let host := match findCI "@".toList auth with
        | some i => auth.drop (i + 1)
        | none => auth
      .ok ⟨host.takeWhile (fun c => c ≠ ':')⟩
    else .ok ""
  else .error "Invalid URL"

/-- `resources.scripts.filter(s => s.src && !s.src.includes(new URL(html).hostname || '')).length`;
the `new URL` call (which may throw) is only evaluated for scripts with
a non-null `src`, short-circuited by `s.src &&`. -/
def thirdPartyCountE (scripts : List ScriptRef) (html : String) : Except String Nat :=
  scripts.foldlM (fun n s =>
    match s.src with
    | some src => do
      let host ← urlHostname html
      pure (if subCS host.toList src.toList then n else n + 1)
    | none => pure n) 0

/-- Third-party script deduction (−5). -/
def thirdPartyDed (tp : Nat) : Nat := if 10 < tp then 5 else 0

/-- `iframes.filter(i => !i.hasLazyLoading).length`. -/
def iframesNoLazy (iframes : List IframeRef) : Nat :=
  (iframes.filter (fun i => !i.hasLazyLoading)).length

/-- Iframe lazy-loading deduction (−3). -/
def iframeDed (iframes : List IframeRef) : Nat :=
  if 0 < iframesNoLazy iframes then 3 else 0

/-- The raw performance score before clamping: 100 minus the ordered,
independent deductions. -/
def perfScoreRaw (rt : Nat) (html : String) (res : Resources) (tp : Nat) : Int :=
  100 - rtDed rt - sizeDed html.length
    - blockDed (blockingScriptCount res.scripts)
    - totScriptsDed res.scripts.length
    - extSheetsDed res.stylesheets.length
    - inlineCSSDed (estimateInlineCSS html)
    - perfImgDed res.images
    - criticalDed html res.stylesheets.length
    - preconnectDed html
    - thirdPartyDed tp
    - iframeDed res.iframes

/-- The `details` array entries (success findings, pushed first). -/
def perfSuccesses (rt : Nat) : List Finding :=
  optF (decide (rt ≤ 600)) (successF ("Rask server-respons: " ++ toString rt ++ "ms"))

/-- The `issues` array entries, in push order. -/
def perfIssues (rt : Nat) (html : String) (res : Resources) (tp : Nat) : List Finding :=
  (if 3000 < rt then
    [issueF "critical" ("Veldig treg server-respons: " ++ toString rt ++ "ms (bør være under 600ms)")]
   else if 1500 < rt then
    [issueF "warning" ("Treg server-respons: " ++ toString rt ++ "ms (bør være under 600ms)")]
   else if 600 < rt then
    [issueF "info" ("Server-respons kan forbedres: " ++ toString rt ++ "ms")]
   else []) ++
  (if 500000 < html.length then
    [issueF "critical" ("HTML-dokumentet er for stort: " ++ toString (htmlKB html.length) ++ "KB (bør være under 100KB)")]
   else if 200000 < html.length then
    [issueF "warning" ("HTML-dokumentet er stort: " ++ toString (htmlKB html.length) ++ "KB")]
   else if 100000 < html.length then
    [issueF "info" ("HTML-dokumentet er litt stort: " ++ toString (htmlKB html.length) ++ "KB")]
   else []) ++
  (let b := blockingScriptCount res.scripts
   if 5 < b then
    [issueF "critical" (toString b ++ " render-blokkerende scripts (bruk async/defer)")]
   else if 2 < b then
    [issueF "warning" (toString b ++ " render-blokkerende scripts")]
   else []) ++
  (let t := res.scripts.length
   if 25 < t then
    [issueF "warning" ("For mange scripts: " ++ toString t ++ " (bør konsolideres)")]
   else if 15 < t then
    [issueF "info" ("Mange scripts: " ++ toString t)]
   else []) ++
  (let e := res.stylesheets.length
   if 8 < e then
    [issueF "warning" ("For mange CSS-filer: " ++ toString e ++ " (bør kombineres)")]
   else if 4 < e then
    [issueF "info" ("Flere CSS-filer: " ++ toString e)]
   else []) ++
  optF (decide (50000 < estimateInlineCSS html))
    (issueF "warning" ("Mye inline CSS (" ++ toString (htmlKB (estimateInlineCSS html)) ++ "KB) - bør flyttes til eksterne filer")) ++
  (if 0 < res.images.length then
    optF (decide (3 < imgsNoDim res.images))
      (issueF "warning" (toString (imgsNoDim res.images) ++ " bilder mangler width/height (forårsaker layout shift)")) ++
    optF (decide (5 < imgsNoLazy res.images))
      (issueF "warning" (toString (imgsNoLazy res.images) ++ " bilder under fold mangler lazy loading")) ++
    optF (decide (5 < imgsNoModern res.images) && decide (3 < res.images.length))
      (issueF "info" (toString (imgsNoModern res.images) ++ " bilder bruker ikke moderne formater (WebP/AVIF)")) ++
    optF (decide (5 < imgsNoSrcset res.images) && decide (3 < res.images.length))
      (issueF "info" (toString (imgsNoSrcset res.images) ++ " bilder mangler responsive srcset"))
   else []) ++
  optF (!hasCriticalCSS html && decide (0 < res.stylesheets.length))
    (issueF "info" "Mangler kritisk inline CSS for raskere first paint") ++
  optF (!hasPreconnect html && !hasDNSPrefetch html)
    (issueF "info" "Mangler preconnect/dns-prefetch for tredjepartsressurser") ++
  optF (decide (10 < tp))
    (issueF "warning" ("Mange tredjepartscripts: " ++ toString tp ++ " (påvirker ytelse)")) ++
  optF (decide (0 < iframesNoLazy res.iframes))
    (issueF "info" (toString (iframesNoLazy res.iframes) ++ " iframes mangler lazy loading"))

/-- The performance metrics record. -/
structure PerfMetrics where
  responseTime : Nat
  htmlSize : Nat
  totalScripts : Nat
  blockingScripts : Nat
  totalStylesheets : Nat
  totalImages : Nat
deriving Repr, DecidableEq

/-- The performance dimension result. -/
structure PerfResult where
  score : Int
  details : List Finding
  metrics : PerfMetrics
deriving Repr, DecidableEq

/-- `analyzePerformance(responseTime, html, resources)`.  The function
can only complete abnormally through the `new URL(html)` call inside
the third-party filter (modelled by `thirdPartyCountE`); every other
step is total.  All other mutations commute with hoisting that filter,
since a thrown exception discards the whole result. -/
def analyzePerformance (rt : Nat) (html : String) (res : Resources) :
    Except String PerfResult := do
  let tp ← thirdPartyCountE res.scripts html
  pure
    { score := clamp (perfScoreRaw rt html res tp)
      details := perfSuccesses rt ++ perfIssues rt html res tp
      metrics :=
        { responseTime := rt
          htmlSize := htmlKB html.length
          totalScripts := res.scripts.length
          blockingScripts := blockingScriptCount res.scripts
          totalStylesheets := res.stylesheets.length + (tagScan "<style" html).length
          totalImages := res.images.length } }

/-! ## SEO analyzer (`analyzeSEO`) -/

/-- The trimmed capture of `/<title[^>]*>([\s\S]*?)<\/title>/i`. -/
def seoTitle (html : String) : Option (List Char) :=
  ((pairScan "<title" "</title>" html).head?).map (fun f => trimL (pairInner 8 f))

/-- The meta-description capture: the `name=…content=…` pattern first,
then the reversed `content=…name=…` pattern. -/
def metaDescCap (html : String) : Option (List Char) :=
  match tagAttrThenCap "<meta" "name=" "description" "content=" true html with
  | some v => some v
  | none =>
    tagCapThenAttrF "<meta".toList "content=".toList true
      (quoteVars "name=".toList "description".toList) html.toList.length html.toList

/-- `(html.match(/<h1[^>]*>([\s\S]*?)<\/h1>/gi) || []).length`. -/
def h1Count (html : String) : Nat := (pairScan "<h1" "</h1>" html).length

/-- `(html.match(/<h2[^>]*>/gi) || []).length`. -/
def h2Count (html : String) : Nat := (tagScan "<h2" html).length

/-- The canonical-link capture
`/<link[^>]*rel=["']canonical["'][^>]*href=["']([^"']+)["']/i`. -/
def canonicalCap (html : String) : Option (List Char) :=
  tagAttrThenCap "<link" "rel=" "canonical" "href=" false html

/-- The Open Graph tag count among title/description/image/url. -/
def ogScore (html : String) : Nat :=
  (if tagHasAttr "<meta" "property=" "og:title" html then 1 else 0) +
  (if tagHasAttr "<meta" "property=" "og:description" html then 1 else 0) +
  (if tagHasAttr "<meta" "property=" "og:image" html then 1 else 0) +
  (if tagHasAttr "<meta" "property=" "og:url" html then 1 else 0)

/-- `/<meta[^>]*name=["']twitter:card["']/i.test(html)`. -/
def hasTwitterCard (html : String) : Bool :=
  tagHasAttr "<meta" "name=" "twitter:card" html

/-- `imgTags.filter(img => !/alt=/i.test(img)).length`. -/
def seoImgsNoAlt (html : String) : Nat :=
  ((tagScan "<img" html).filter (fun t => !subCI "alt=".toList t)).length

/-- `/<script[^>]*type=["']application\/ld\+json["']/i.test(html)`. -/
def hasJsonLd (html : String) : Bool :=
  tagHasAttr "<script" "type=" "application/ld+json" html

/-- `/itemscope|itemtype/i.test(html)`. -/
def hasMicrodata (html : String) : Bool :=
  subCI "itemscope".toList html.toList || subCI "itemtype".toList html.toList

/-- `/<html[^>]*lang=["'][^"']+["']/i.test(html)`. -/
def hasLangAttr (html : String) : Bool :=
  (tagKeyCap "<html" "lang=" false html).isSome

/-- The robots-meta capture
`/<meta[^>]*name=["']robots["'][^>]*content=["']([^"']+)["']/i`,
tested for `noindex`. -/
def robotsNoindex (html : String) : Bool :=
  match tagAttrThenCap "<meta" "name=" "robots" "content=" false html with
  | some v => subCI "noindex".toList v
  | none => false

/-- `(html.match(/<a[^>]*href=["']\/[^"']*["']/gi) || []).length`. -/
def internalLinkCount (html : String) : Nat := countScan intLinkM html

/-- Title deduction (−15/−10/−5) on the trimmed title. -/
def titleDed (t : Option (List Char)) : Nat :=
  match t with
  | none => 15
  | some title => if title.length < 10 then 10 else if 70 < title.length then 5 else 0

/-- Missing title-separator test (`|`, `-`, `–`; `String.includes`,
case-sensitive). -/
def titleNoSep (title : List Char) : Bool :=
  !(subCS "|".toList title || subCS "-".toList title || subCS "–".toList title)

/-- Meta-description deduction (−12/−6/−3). -/
def descDed (d : Option (List Char)) : Nat :=
  match d with
  | none => 12
  | some v => if v.length < 70 then 6 else if 160 < v.length then 3 else 0

/-- H1 deduction (−10/−5). -/
def h1Ded (n : Nat) : Nat := if n = 0 then 10 else if 1 < n then 5 else 0

/-- H2 deduction (−3). -/
def h2Ded (h2 docLen : Nat) : Nat := if h2 = 0 && 5000 < docLen then 3 else 0

/-- Image-alt deduction: `Math.min(10, imagesWithoutAlt * 2)` when
positive. -/
def altDedSEO (n : Nat) : Nat := if 0 < n then min 10 (n * 2) else 0

/-- Internal-link deduction (−2). -/
def intLinkDed (n docLen : Nat) : Nat := if n < 3 && 5000 < docLen then 2 else 0

/-- The raw SEO score before clamping. -/
def seoScoreRaw (html : String) : Int :=
  100 - titleDed (seoTitle html) - descDed (metaDescCap html)
    - h1Ded (h1Count html) - h2Ded (h2Count html) html.length
    - (if (canonicalCap html).isNone then 8 else 0)
    - (if ogScore html = 0 then 8 else if ogScore html < 4 then 4 else 0)
    - (if !hasTwitterCard html then 4 else 0)
    - altDedSEO (seoImgsNoAlt html)
    - (if !(hasJsonLd html || hasMicrodata html) then 5 else 0)
    - (if !hasLangAttr html then 3 else 0)
    - intLinkDed (internalLinkCount html) html.length

/-- The SEO success findings, in push order. -/
def seoSuccesses (html : String) : List Finding :=
  (match seoTitle html with
   | some title =>
     optF (!decide (title.length < 10) && !decide (70 < title.length) &&
           decide (50 ≤ title.length) && decide (title.length ≤ 60))
       (successF ("Optimal title-lengde: " ++ toString title.length ++ " tegn"))
   | none => []) ++
  (match metaDescCap html with
   | some v =>
     optF (!decide (v.length < 70) && !decide (160 < v.length) &&
           decide (140 ≤ v.length) && decide (v.length ≤ 160))
       (successF ("Optimal meta description: " ++ toString v.length ++ " tegn"))
   | none => []) ++
  optF (decide (h1Count html = 1)) (successF "Korrekt bruk av H1-overskrift") ++
  optF (canonicalCap html).isSome (successF "Canonical URL er definert") ++
  optF (decide (ogScore html = 4)) (successF "Komplett Open Graph-implementasjon") ++
  optF (hasJsonLd html || hasMicrodata html) (successF "Strukturert data er implementert")

/-- The SEO issue findings, in push order. -/
def seoIssues (html : String) : List Finding :=
  (match seoTitle html with
   | none => [issueF "critical" "Mangler title-tag"]
   | some title =>
     (if title.length < 10 then
       [issueF "warning" ("Title er for kort: " ++ toString title.length ++ " tegn (anbefalt 50-60)")]
      else if 70 < title.length then
       [issueF "warning" ("Title er for lang: " ++ toString title.length ++ " tegn (anbefalt 50-60)")]
      else []) ++
     optF (titleNoSep title) (issueF "info" "Title mangler tydelig struktur (keyword | brand)")) ++
  (match metaDescCap html with
   | none => [issueF "critical" "Mangler meta description"]
   | some v =>
     if v.length < 70 then
       [issueF "warning" ("Meta description er for kort: " ++ toString v.length ++ " tegn (anbefalt 150-160)")]
     else if 160 < v.length then
       [issueF "info" ("Meta description er litt lang: " ++ toString v.length ++ " tegn (kan bli avkortet)")]
     else []) ++
  (if h1Count html = 0 then [issueF "critical" "Mangler H1-overskrift"]
   else if 1 < h1Count html then
     [issueF "warning" ("Flere H1-overskrifter: " ++ toString (h1Count html) ++ " (bør kun ha én)")]
   else []) ++
  optF (decide (h2Count html = 0) && decide (5000 < html.length))
    (issueF "info" "Mangler H2-overskrifter for struktur") ++
  optF (canonicalCap html).isNone (issueF "warning" "Mangler canonical URL") ++
  (if ogScore html = 0 then
    [issueF "warning" "Mangler Open Graph-tags (påvirker deling på sosiale medier)"]
   else if ogScore html < 4 then
    [issueF "info" ("Ufullstendige Open Graph-tags (" ++ toString (ogScore html) ++ "/4)")]
   else []) ++
  optF (!hasTwitterCard html) (issueF "info" "Mangler Twitter Card-tags") ++
  optF (decide (0 < seoImgsNoAlt html))
    (issueF "warning" (toString (seoImgsNoAlt html) ++ " bilder mangler alt-tekst")) ++
  optF (!(hasJsonLd html || hasMicrodata html))
    (issueF "info" "Mangler strukturert data (Schema.org)") ++
  optF (!hasLangAttr html) (issueF "info" "Mangler språkdeklarasjon (lang-attributt)") ++
  optF (robotsNoindex html) (issueF "warning" "Siden er satt til noindex (vil ikke indekseres)") ++
  optF (decide (internalLinkCount html < 3) && decide (5000 < html.length))
    (issueF "info" "Få interne lenker (bør ha flere for bedre SEO)")

/-- The SEO metrics record. -/
structure SEOMetrics where
  titleLength : Nat
  descriptionLength : Nat
  h1Count : Nat
  h2Count : Nat
  imagesWithoutAlt : Nat
  hasStructuredData : Bool
  hasOpenGraph : Bool
deriving Repr, DecidableEq

/-- The SEO dimension result. -/
structure SEOResult where
  score : Int
  details : List Finding
  metrics : SEOMetrics
deriving Repr, DecidableEq

/-- `analyzeSEO(html, parsedUrl)` (the URL argument is unused in the
source body). -/
def analyzeSEO (html : String) (_url : String) : SEOResult :=
  { score := clamp (seoScoreRaw html)
    details := seoSuccesses html ++ seoIssues html
    metrics :=
      { titleLength := ((seoTitle html).getD []).length
        descriptionLength := ((metaDescCap html).getD []).length
        h1Count := h1Count html
        h2Count := h2Count html
        imagesWithoutAlt := seoImgsNoAlt html
        hasStructuredData := hasJsonLd html || hasMicrodata html
        hasOpenGraph := ogScore html = 4 } }

/-! ## Security analyzer (`analyzeSecurity`) -/

/-- The lower-cased header-object lookup built by
`headers.forEach((value, key) => headerObj[key.toLowerCase()] = value)`;
a later duplicate key overwrites an earlier one.  `k` is given in lower
case. -/
def hGet (hs : List (String × String)) (k : String) : Option String :=
  hs.foldl (fun acc p => if lcL p.1.toList = k.toList then some p.2 else acc) none

/-- Capture of `/max-age=(\d+)/i` inside a header value. -/
def numAfterKeyF (key : List Char) : Nat → List Char → Option Nat
  | 0, _ => none
  | _ + 1, [] => none
  | fuel + 1, s@(_ :: rest) =>
    if pfxCI key s then
      let ds := (s.drop key.length).takeWhile isDig
      if 0 < ds.length then some (digitsToNat ds) else numAfterKeyF key fuel rest
    else numAfterKeyF key fuel rest

/-- `hsts.match(/max-age=(\d+)/i)`. -/
def maxAgeCap (v : String) : Option Nat :=
  numAfterKeyF "max-age=".toList v.toList.length v.toList

/-- JS falsiness of a header-object lookup: `!v` holds both for a
missing key (`undefined`) and for an empty-string value. -/
def falsyH (v : Option String) : Bool :=
  match v with
  | none => true
  | some s => s == ""

/-- HSTS deduction: −12 when the header is missing or its value is the
falsy empty string, −4 when a captured `max-age` is below one year,
otherwise 0 (a present non-empty header without `max-age` counts as
correctly configured). -/
def hstsDed (h : Option String) : Nat :=
  match h with
  | none => 12
  | some v =>
    if v = "" then 12
    else
      match maxAgeCap v with
      | some n => if n < 31536000 then 4 else 0
      | none => 0

/-- CSP deduction: −10 when the header is missing or empty (falsy),
plus −3 for `unsafe-inline` together with `script-src` and −3 for
`unsafe-eval`. -/
def cspDed (c : Option String) : Nat :=
  match c with
  | none => 10
  | some v =>
    if v = "" then 10
    else
      (if subCI "unsafe-inline".toList v.toList && subCI "script-src".toList v.toList
       then 3 else 0) +
      (if subCI "unsafe-eval".toList v.toList then 3 else 0)

/-- `csp?.includes('frame-ancestors')` (case-sensitive `includes`;
`undefined` is falsy). -/
def cspFrameAncestors (c : Option String) : Bool :=
  match c with
  | some v => subCS "frame-ancestors".toList v.toList
  | none => false

/-- Clickjacking deduction (−8): `!xfo` is true for a missing or
empty-string `X-Frame-Options` value. -/
def xfoDed (xfo csp : Option String) : Nat :=
  if falsyH xfo && !cspFrameAncestors csp then 8 else 0

/-- `(html.match(/http:\/\/(?!localhost)[^"'\s>]+/gi) || []).length`. -/
def mixedCount (html : String) : Nat := countScan mixedM html

/-- `(html.match(/[a-zA-Z0-9._%+-]+@…/g) || []).length`. -/
def emailCount (html : String) : Nat := countScan emailM html

/-- `/action=["']http:\/\//i.test(f)` on a `<form …>` tag text. -/
def formHttpAction (f : List Char) : Bool :=
  subCI ("action=".toList ++ dq :: "http://".toList) f ||
  subCI ("action=".toList ++ sqC :: "http://".toList) f

/-- `forms.filter(f => /action=["']http:\/\//i.test(f)).length`. -/
def httpFormCount (html : String) : Nat :=
  ((tagScan "<form" html).filter formHttpAction).length

/-- The password fields matched by
`/<input[^>]*type=["']password["'][^>]*>/gi`. -/
def passwordFields (html : String) : List (List Char) :=
  (tagScan "<input" html).filter (fun t => hasAttrVal "type=".toList "password".toList t)

/-- `passwordFields.filter(f => !/autocomplete=/i.test(f)).length`. -/
def pwNoAutocomplete (html : String) : Nat :=
  ((passwordFields html).filter (fun t => !subCI "autocomplete=".toList t)).length

/-- Server-header disclosure deduction (−2): a recognised server name
together with a version number pattern `\d+\.\d+`. -/
def serverDed (server : Option String) : Nat :=
  match server with
  | some v =>
    if (subCI "apache".toList v.toList || subCI "nginx".toList v.toList ||
        subCI "iis".toList v.toList) && hasVersionNum v.toList
    then 2 else 0
  | none => 0

/-- The raw security score before clamping. -/
def securityScoreRaw (protocol : String) (hs : List (String × String))
    (html : String) : Int :=
  100 - (if protocol ≠ "https:" then 30 else 0)
    - hstsDed (hGet hs "strict-transport-security")
    - cspDed (hGet hs "content-security-policy")
    - xfoDed (hGet hs "x-frame-options") (hGet hs "content-security-policy")
    - (if falsyH (hGet hs "x-content-type-options") then 6 else 0)
    - (if falsyH (hGet hs "referrer-policy") then 4 else 0)
    - (if falsyH (hGet hs "permissions-policy") && falsyH (hGet hs "feature-policy") then 4 else 0)
    - (if falsyH (hGet hs "x-xss-protection") then 2 else 0)
    - (if 0 < mixedCount html && protocol = "https:" then 5 else 0)
    - (if 3 < emailCount html then 2 else 0)
    - (if 0 < httpFormCount html then 8 else 0)
    - serverDed (hGet hs "server")
    - (if falsyH (hGet hs "x-powered-by") then 0 else 2)

/-- The security success findings, in push order. -/
def securitySuccesses (protocol : String) (hs : List (String × String)) : List Finding :=
  optF (decide (protocol = "https:")) (successF "HTTPS er aktivert") ++
  (match hGet hs "strict-transport-security" with
   | none => []
   | some v =>
     if v = "" then []
     else
       optF (!(decide (maxAgeCap v ≠ none) &&
               decide (((maxAgeCap v).getD 0) < 31536000)))
         (successF "HSTS er korrekt konfigurert")) ++
  optF (!falsyH (hGet hs "content-security-policy")) (successF "CSP er implementert") ++
  optF (!(falsyH (hGet hs "x-frame-options") &&
          !cspFrameAncestors (hGet hs "content-security-policy")))
    (successF "Clickjacking-beskyttelse er aktiv") ++
  optF (!falsyH (hGet hs "x-content-type-options"))
    (successF "MIME-type sniffing er blokkert")

/-- The security issue findings, in push order. -/
def securityIssues (protocol : String) (hs : List (String × String))
    (html : String) : List Finding :=
  optF (decide (protocol ≠ "https:")) (issueF "critical" "Siden bruker ikke HTTPS") ++
  (match hGet hs "strict-transport-security" with
   | none => [issueF "warning" "Mangler HSTS-header (Strict-Transport-Security)"]
   | some v =>
     if v = "" then [issueF "warning" "Mangler HSTS-header (Strict-Transport-Security)"]
     else
       optF (decide (maxAgeCap v ≠ none) && decide (((maxAgeCap v).getD 0) < 31536000))
         (issueF "info" "HSTS max-age bør være minst 1 år (31536000 sekunder)") ++
       optF (!subCI "includesubdomains".toList v.toList)
         (issueF "info" "HSTS mangler includeSubDomains")) ++
  (match hGet hs "content-security-policy" with
   | none => [issueF "warning" "Mangler Content-Security-Policy header"]
   | some v =>
     if v = "" then [issueF "warning" "Mangler Content-Security-Policy header"]
     else
       optF (subCI "unsafe-inline".toList v.toList && subCI "script-src".toList v.toList)
         (issueF "info" "CSP tillater unsafe-inline for scripts") ++
       optF (subCI "unsafe-eval".toList v.toList)
         (issueF "info" "CSP tillater unsafe-eval")) ++
  optF (falsyH (hGet hs "x-frame-options") &&
        !cspFrameAncestors (hGet hs "content-security-policy"))
    (issueF "warning" "Mangler clickjacking-beskyttelse (X-Frame-Options)") ++
  optF (falsyH (hGet hs "x-content-type-options"))
    (issueF "warning" "Mangler X-Content-Type-Options: nosniff") ++
  optF (falsyH (hGet hs "referrer-policy"))
    (issueF "info" "Mangler Referrer-Policy header") ++
  optF (falsyH (hGet hs "permissions-policy") && falsyH (hGet hs "feature-policy"))
    (issueF "info" "Mangler Permissions-Policy header") ++
  optF (falsyH (hGet hs "x-xss-protection"))
    (issueF "info" "Mangler X-XSS-Protection header (legacy)") ++
  optF (decide (0 < mixedCount html) && decide (protocol = "https:"))
    (issueF "warning" (toString (mixedCount html) ++ " ressurser lastes over HTTP (mixed content)")) ++
  optF (decide (3 < emailCount html))
    (issueF "info" "E-postadresser er synlige i kildekoden (spam-risiko)") ++
  optF (decide (0 < httpFormCount html))
    (issueF "critical" (toString (httpFormCount html) ++ " skjema sender data over HTTP")) ++
  optF (decide (0 < pwNoAutocomplete html))
    (issueF "info" "Passord-felt mangler autocomplete-attributt") ++
  optF (decide (0 < serverDed (hGet hs "server")))
    (issueF "info" "Server-versjon er synlig i headers") ++
  optF (!falsyH (hGet hs "x-powered-by"))
    (issueF "info" "X-Powered-By header eksponerer teknologi")

/-- The boolean header-presence record returned under the `headers` key
of the security result. -/
structure SecHeaders where
  https : Bool
  hsts : Bool
  csp : Bool
  xfo : Bool
  xcto : Bool
deriving Repr, DecidableEq

/-- The security dimension result (its metrics key is called
`headers`). -/
structure SecurityResult where
  score : Int
  details : List Finding
  headers : SecHeaders
deriving Repr, DecidableEq

/-- `analyzeSecurity(parsedUrl, headers, html)`, with the URL
represented by its `protocol` (its only use). -/
def analyzeSecurity (protocol : String) (hs : List (String × String))
    (html : String) : SecurityResult :=
  { score := clamp (securityScoreRaw protocol hs html)
    details := securitySuccesses protocol hs ++ securityIssues protocol hs html
    headers :=
      { https := protocol = "https:"
        hsts := !falsyH (hGet hs "strict-transport-security")
        csp := !falsyH (hGet hs "content-security-policy")
        xfo := !falsyH (hGet hs "x-frame-options")
        xcto := !falsyH (hGet hs "x-content-type-options") } }

/-! ## Mobile analyzer (`analyzeMobile`) -/

/-- The viewport capture
`/<meta[^>]*name=["']viewport["'][^>]*content=["']([^"']+)["']/i`,
lower-cased as in the source. -/
def viewportCap (html : String) : Option (List Char) :=
  (tagAttrThenCap "<meta" "name=" "viewport" "content=" false html).map lcL

/-- The viewport deduction block: −25 missing; otherwise −10 without
`width=device-width`, −5 for zoom blocking, −2 without
`initial-scale`. -/
def viewportDed (v : Option (List Char)) : Nat :=
  match v with
  | none => 25
  | some vp =>
    (if !subCS "width=device-width".toList vp then 10 else 0) +
    (if subCS "maximum-scale=1".toList vp || subCS "user-scalable=no".toList vp
     then 5 else 0) +
    (if !subCS "initial-scale".toList vp then 2 else 0)

/-- `verySmallFonts`: matches of `/font-size:\s*([0-9]+)px/gi` whose
size parses below 12. -/
def verySmallFonts (html : String) : Nat := countScan fontSizeM html

/-- `(html.match(/padding:\s*[0-3]px/gi) || []).length`. -/
def smallButtons (html : String) : Nat := countScan paddingM html

/-- `imgTags.filter(img => /srcset=/i.test(img)).length`. -/
def responsiveImages (html : String) : Nat :=
  ((tagScan "<img" html).filter (fun t => subCI "srcset=".toList t)).length

/-- `(html.match(/<picture[^>]*>/gi) || []).length`. -/
def pictureCount (html : String) : Nat := (tagScan "<picture" html).length

/-- The responsive-image deduction (−8/−4); `responsiveImages <
imgTags.length / 2` in floating division is `2·resp < total`. -/
def respImgDed (total resp pict : Nat) : Nat :=
  if 5 < total && resp = 0 && pict = 0 then 8
  else if 3 < total && 2 * resp < total then 4
  else 0

/-- `mobileQueries`: matches of `/@media[^{]*\{/gi` passing the
`/max-width|min-width|screen/i` filter. -/
def mobileQueries (html : String) : Nat := countScan mediaM html

/-- Media-query deduction (−10/−4). -/
def mediaDed (n : Nat) : Nat := if n = 0 then 10 else if n < 3 then 4 else 0

/-- `largeFixedWidths`: matches of `/width:\s*\d{4,}px/gi` whose number
parses above 500. -/
def largeFixedWidths (html : String) : Nat := countScan fixedWidthM html

/-- `/<link[^>]*rel=["']apple-touch-icon["']/i.test(html)`. -/
def hasAppleTouchIcon (html : String) : Bool :=
  tagHasAttr "<link" "rel=" "apple-touch-icon" html

/-- `/<link[^>]*rel=["']icon["']/i.test(html)`. -/
def hasFavicon (html : String) : Bool := tagHasAttr "<link" "rel=" "icon" html

/-- `/<link[^>]*rel=["']manifest["']/i.test(html)`. -/
def hasManifest (html : String) : Bool := tagHasAttr "<link" "rel=" "manifest" html

/-- `/<meta[^>]*name=["']theme-color["']/i.test(html)`. -/
def hasThemeColor (html : String) : Bool := tagHasAttr "<meta" "name=" "theme-color" html

/-- The raw mobile score before clamping. -/
def mobileScoreRaw (html : String) : Int :=
  100 - viewportDed (viewportCap html)
    - (if 5 < verySmallFonts html then 5 else 0)
    - (if 3 < smallButtons html then 3 else 0)
    - respImgDed (tagScan "<img" html).length (responsiveImages html) (pictureCount html)
    - mediaDed (mobileQueries html)
    - (if 2 < largeFixedWidths html then 8 else 0)
    - (if !hasAppleTouchIcon html then 3 else 0)
    - (if !hasFavicon html then 2 else 0)
    - (if !hasManifest html then 5 else 0)
    - (if !hasThemeColor html then 2 else 0)

/-- The mobile success findings, in push order. -/
def mobileSuccesses (html : String) : List Finding :=
  (match viewportCap html with
   | some vp =>
     optF (subCS "width=device-width".toList vp)
       (successF "Viewport er korrekt konfigurert")
   | none => []) ++
  optF (!decide (mobileQueries html = 0) && !decide (mobileQueries html < 3))
    (successF (toString (mobileQueries html) ++ " responsive media queries")) ++
  optF (hasManifest html) (successF "Web App Manifest er implementert")

/-- The mobile issue findings, in push order. -/
def mobileIssues (html : String) : List Finding :=
  (match viewportCap html with
   | none => [issueF "critical" "Mangler viewport meta-tag"]
   | some vp =>
     optF (!subCS "width=device-width".toList vp)
       (issueF "warning" "Viewport mangler width=device-width") ++
     optF (subCS "maximum-scale=1".toList vp || subCS "user-scalable=no".toList vp)
       (issueF "warning" "Viewport blokkerer zoom (dårlig for tilgjengelighet)") ++
     optF (!subCS "initial-scale".toList vp)
       (issueF "info" "Viewport mangler initial-scale=1")) ++
  optF (decide (5 < verySmallFonts html))
    (issueF "warning" "Flere elementer har for liten skriftstørrelse for mobil (<12px)") ++
  optF (decide (3 < smallButtons html))
    (issueF "info" "Noen klikkbare elementer kan være for små for touch") ++
  (let total := (tagScan "<img" html).length
   let resp := responsiveImages html
   if 5 < total && resp = 0 && pictureCount html = 0 then
     [issueF "warning" "Ingen responsive bilder (srcset/picture)"]
   else if 3 < total && 2 * resp < total then
     [issueF "info" ("Kun " ++ toString resp ++ "/" ++ toString total ++ " bilder er responsive")]
   else []) ++
  (if mobileQueries html = 0 then
    [issueF "warning" "Ingen CSS media queries for responsivt design"]
   else if mobileQueries html < 3 then
    [issueF "info" ("Få media queries: " ++ toString (mobileQueries html))]
   else []) ++
  optF (decide (2 < largeFixedWidths html))
    (issueF "warning" (toString (largeFixedWidths html) ++ " elementer har faste bredder som kan bryte mobil-layout")) ++
  optF (!hasAppleTouchIcon html) (issueF "info" "Mangler Apple Touch Icon") ++
  optF (!hasFavicon html) (issueF "info" "Mangler favicon") ++
  optF (!hasManifest html) (issueF "info" "Mangler Web App Manifest (PWA-støtte)") ++
  optF (!hasThemeColor html) (issueF "info" "Mangler theme-color meta-tag")

/-- The mobile metrics record. -/
structure MobileMetrics where
  hasViewport : Bool
  responsiveImages : Nat
  totalImages : Nat
  mediaQueries : Nat
  hasManifest : Bool
  hasTouchIcon : Bool
deriving Repr, DecidableEq

/-- The mobile dimension result. -/
structure MobileResult where
  score : Int
  details : List Finding
  metrics : MobileMetrics
deriving Repr, DecidableEq

/-- `analyzeMobile(html)`. -/
def analyzeMobile (html : String) : MobileResult :=
  { score := clamp (mobileScoreRaw html)
    details := mobileSuccesses html ++ mobileIssues html
    metrics :=
      { hasViewport := (viewportCap html).isSome
        responsiveImages := responsiveImages html
        totalImages := (tagScan "<img" html).length
        mediaQueries := mobileQueries html
        hasManifest := hasManifest html
        hasTouchIcon := hasAppleTouchIcon html } }

/-! ## Accessibility analyzer (`analyzeAccessibility`) -/

/-- The `<html … lang="…">` capture
`/<html[^>]*lang=["']([^"']+)["']/i`. -/
def htmlLangCap (html : String) : Option (List Char) :=
  tagKeyCap "<html" "lang=" false html

/-- The inputs surviving the
`!/type=["'](hidden|submit|button|image)["']/i` filter. -/
def textInputs (html : String) : List (List Char) :=
  (tagScan "<input" html).filter (fun i =>
    !(["hidden", "submit", "button", "image"].any
      (fun t => hasAttrVal "type=".toList t.toList i)))

/-- The pattern string handed to
`new RegExp('<label[^>]*for=["\']' + id + '["\']', 'i')`: the captured
`id` is spliced verbatim between the two fixed halves. -/
def labelPatternChars (id : List Char) : List Char :=
  "<label[^>]*for=[".toList ++ dq :: sqC :: ']' :: id ++ '[' :: dq :: sqC :: [']']

/-- A simplified JavaScript regular-expression well-formedness check
for the spliced pattern: escapes must not dangle, group parentheses
must balance and character classes must close.  (Quantifier-position
errors are not modelled; ids built of ordinary attribute characters
never reach them.)  `new RegExp` throws a `SyntaxError` exactly when
the spliced pattern is ill-formed, e.g. for an id containing an
unbalanced `(`. -/
def reSyntaxOkF : Nat → Nat → Bool → List Char → Bool
  | 0, _, _, _ => false
  | _ + 1, d, inCls, [] => d = 0 && !inCls
  | fuel + 1, d, inCls, c :: rest =>
    if c = '\\' then
      match rest with
      | _ :: r2 => reSyntaxOkF fuel d inCls r2
      | [] => false
    else if inCls then reSyntaxOkF fuel d (c != ']') rest
    else if c = '(' then reSyntaxOkF fuel (d + 1) false rest
    else if c = ')' then decide (0 < d) && reSyntaxOkF fuel (d - 1) false rest
    else if c = '[' then reSyntaxOkF fuel d true rest
    else reSyntaxOkF fuel d false rest

/-- Does the spliced label pattern compile? -/
def labelPatternOk (id : List Char) : Bool :=
  reSyntaxOkF (labelPatternChars id).length.succ 0 false (labelPatternChars id)

/-- The test performed by the compiled label pattern
`<label[^>]*for=["']id["']` with the `i` flag (the id is matched
literally; ids made of ordinary attribute characters contain no regex
metacharacters). -/
def labelForTest (id : List Char) (html : List Char) : Bool :=
  tagHasF "<label".toList (quoteVars "for=".toList (lcL id)) html.length html

/-- Monadic filter evaluating the predicate left to right, propagating
the first thrown error, as `Array.prototype.filter` does when its
callback throws. -/
def filterME (p : α → Except String Bool) : List α → Except String (List α)
  | [] => .ok []
  | x :: xs => do
    let b ← p x
    let r ← filterME p xs
    pure (if b then x :: r else r)

/-- The callback of the `inputsWithoutLabel` filter: an input with no
`id` capture is unlabeled; otherwise the spliced label regex is built
(which may throw) and tested against the whole document. -/
def inputWithoutLabelE (html : List Char) (inp : List Char) : Except String Bool :=
  match attrCap "id=" false inp with
  | none => .ok true
  | some id =>
    if labelPatternOk id then .ok (!labelForTest id html)
    else .error "SyntaxError: Invalid regular expression"

/-- `textInputs.filter(input => …label lookup…)`, which throws on the
first input whose id breaks the spliced regex. -/
def inputsWithoutLabelE (html : String) : Except String (List (List Char)) :=
  filterME (inputWithoutLabelE html.toList) (textInputs html)

/-- `textInputs.filter(i => /aria-label=/i.test(i) ||
/aria-labelledby=/i.test(i)).length`. -/
def ariaLabeledCount (html : String) : Nat :=
  ((textInputs html).filter (fun i =>
    subCI "aria-label=".toList i || subCI "aria-labelledby=".toList i)).length

/-- The form-label deduction applied once the two counts exist:
`Math.min(12, (without - aria) * 3)` guarded by `without > aria`. -/
def formPenalty (w r : Nat) : Nat :=
  if r < w then
    (let unlabeled := w - r
     if 0 < unlabeled then min 12 (unlabeled * 3) else 0)
  else 0

/-- The per-level heading counts `<h1 …>` … `<h6 …>`. -/
def headingCounts (html : String) : List (Nat × Nat) :=
  [1, 2, 3, 4, 5, 6].map (fun i => (i, (tagScan ("<h" ++ toString i) html).length))

/-- The first skipped heading level: walking the non-empty levels in
order, report the first jump of more than one and stop. -/
def findHeadingSkip : Nat → List (Nat × Nat) → Option (Nat × Nat)
  | _, [] => none
  | last, (lvl, cnt) :: hs =>
    if 0 < cnt then
      if 0 < last && last + 1 < lvl then some (last, lvl)
      else findHeadingSkip lvl hs
    else findHeadingSkip last hs

/-- `/<tag[^>]*>|role=["']name["']/i.test(html)`. -/
def hasLandmark (tag role : String) (html : String) : Bool :=
  tagExists tag html || hasAttrVal "role=".toList role.toList html.toList

/-- The landmark count among main/nav/header/footer. -/
def landmarkCount (html : String) : Nat :=
  (if hasLandmark "<main" "main" html then 1 else 0) +
  (if hasLandmark "<nav" "navigation" html then 1 else 0) +
  (if hasLandmark "<header" "banner" html then 1 else 0) +
  (if hasLandmark "<footer" "contentinfo" html then 1 else 0)

/-- The skip-link test: the `#main|#content|#skip` anchor pattern or the
textual `/skip.*(link|nav|content)/i` pattern. -/
def hasSkipLink (html : String) : Bool :=
  skipAnchor html || skipTextF html.toList.length html.toList

/-- The generic-link-text count: `<a …>…</a>` matches whose tag-stripped,
trimmed, lower-cased text equals one of the deny-listed phrases. -/
def badLinkCount (html : String) : Nat :=
  ((pairScan "<a" "</a>" html).filter (fun l =>
    let text := lcL (trimL (stripTagsF l.length l))
    ["klikk her", "les mer", "her", "link", "click here", "read more"].any
      (fun d => text = d.toList))).length

/-- `/outline:\s*none|outline:\s*0(?!\d)/gi.test(html)`. -/
def hasOutlineNone (html : String) : Bool :=
  outlineNoneF html.toList.length html.toList

/-- `/:focus/i.test(html)`. -/
def hasFocusStyles (html : String) : Bool := subCI ":focus".toList html.toList

/-- `(html.match(/color:\s*#[def][def][def]/gi) || []).length`. -/
def lightColorCount (html : String) : Nat := countScan lightColorM html

/-- `(html.match(/<div[^>]*onclick/gi) || []).length` and the `<span`
variant. -/
def divOnclickCount (html : String) : Nat := countScan (onclickM "<div".toList) html

/-- See `divOnclickCount`. -/
def spanOnclickCount (html : String) : Nat := countScan (onclickM "<span".toList) html

/-- `(html.match(/tabindex=["'][1-9]/gi) || []).length`. -/
def tabindexCount (html : String) : Nat := countScan tabindexM html

/-- The image-alt deduction `Math.min(15, n * 3)` when positive. -/
def altDedAcc (n : Nat) : Nat := if 0 < n then min 15 (n * 3) else 0

/-- The raw accessibility score before clamping, given the
`inputsWithoutLabel` count `wo` (whose computation may throw). -/
def accScoreRaw (html : String) (wo : Nat) : Int :=
  100 - (if (htmlLangCap html).isNone then 8 else 0)
    - altDedAcc (seoImgsNoAlt html)
    - formPenalty wo (ariaLabeledCount html)
    - (if (tagScan "<h1" html).length = 0 then 5 else 0)
    - (if (findHeadingSkip 0 (headingCounts html)).isSome then 3 else 0)
    - (if landmarkCount html < 2 then 6 else 0)
    - (if !hasSkipLink html && 10000 < html.length then 5 else 0)
    - (if 3 < badLinkCount html then 5 else 0)
    - (if hasOutlineNone html && !hasFocusStyles html then 5 else 0)
    - (if 3 < lightColorCount html then 3 else 0)
    - (if 0 < (tagScan "<table" html).length && (tagScan "<th" html).length = 0 then 5 else 0)
    - (if 2 < divOnclickCount html + spanOnclickCount html then 4 else 0)
    - (if 0 < tabindexCount html then 3 else 0)

/-- The accessibility success findings, in push order. -/
def accSuccesses (html : String) : List Finding :=
  (match htmlLangCap html with
   | some v => [successF ("Språk er definert: " ++ (⟨v⟩ : String))]
   | none => []) ++
  optF (!decide (0 < seoImgsNoAlt html) && decide (0 < (tagScan "<img" html).length))
    (successF "Alle bilder har alt-attributt") ++
  optF (decide (landmarkCount html = 4)) (successF "God bruk av semantiske landmarks")

/-- The accessibility issue findings, in push order, given the
`inputsWithoutLabel` count `wo`. -/
def accIssues (html : String) (wo : Nat) : List Finding :=
  optF (htmlLangCap html).isNone
    (issueF "warning" "Mangler lang-attributt på html-elementet") ++
  optF (decide (0 < seoImgsNoAlt html))
    (issueF "warning" (toString (seoImgsNoAlt html) ++ " bilder mangler alt-attributt")) ++
  (if ariaLabeledCount html < wo then
    (let unlabeled := wo - ariaLabeledCount html
     optF (decide (0 < unlabeled))
       (issueF "warning" (toString unlabeled ++ " skjemafelt mangler tilknyttet label")))
   else []) ++
  optF (decide ((tagScan "<h1" html).length = 0))
    (issueF "warning" "Mangler H1-overskrift") ++
  (match findHeadingSkip 0 (headingCounts html) with
   | some (last, lvl) =>
     [issueF "info" ("Overskriftsnivå hoppes over (H" ++ toString last ++ " til H" ++ toString lvl ++ ")")]
   | none => []) ++
  optF (decide (landmarkCount html < 2))
    (issueF "warning" "Få ARIA landmarks (main, nav, header, footer)") ++
  optF (!hasSkipLink html && decide (10000 < html.length))
    (issueF "info" "Mangler skip-link for tastaturnavigasjon") ++
  optF (decide (3 < badLinkCount html))
    (issueF "info" (toString (badLinkCount html) ++ " lenker har generisk tekst (\"klikk her\", \"les mer\")")) ++
  optF (hasOutlineNone html && !hasFocusStyles html)
    (issueF "warning" "Focus-indikatorer kan være fjernet uten erstatning") ++
  optF (decide (3 < lightColorCount html))
    (issueF "info" "Mulig dårlig fargekontrast (veldig lyse farger)") ++
  optF (decide (0 < (tagScan "<table" html).length) &&
        decide ((tagScan "<th" html).length = 0))
    (issueF "warning" "Tabeller mangler header-celler (th)") ++
  optF (decide (2 < divOnclickCount html + spanOnclickCount html))
    (issueF "warning" "Klikkbare div/span-elementer bør være buttons eller lenker") ++
  optF (decide (0 < tabindexCount html))
    (issueF "info" "Positiv tabindex kan forstyrre naturlig tab-rekkefølge")

/-- The heading-structure summary string of the metrics. -/
def headingStructure (html : String) : String :=
  String.intercalate ", "
    (((headingCounts html).filter (fun p => 0 < p.2)).map
      (fun p => "H" ++ toString p.1 ++ ":" ++ toString p.2))

/-- The accessibility metrics record. -/
structure AccMetrics where
  hasLang : Bool
  imagesWithoutAlt : Nat
  landmarks : Nat
  hasSkipLink : Bool
  headingStructure : String
deriving Repr, DecidableEq

/-- The accessibility dimension result. -/
structure AccResult where
  score : Int
  details : List Finding
  metrics : AccMetrics
deriving Repr, DecidableEq

/-- `analyzeAccessibility(html)`.  The only non-total step is the
spliced label `RegExp` inside the form-label filter, modelled by
`inputsWithoutLabelE`; a thrown `SyntaxError` discards the whole
result, so hoisting that computation preserves the semantics. -/
def analyzeAccessibility (html : String) : Except String AccResult := do
  let wo ← inputsWithoutLabelE html
  pure
    { score := clamp (accScoreRaw html wo.length)
      details := accSuccesses html ++ accIssues html wo.length
      metrics :=
        { hasLang := (htmlLangCap html).isSome
          imagesWithoutAlt := seoImgsNoAlt html
          landmarks := landmarkCount html
          hasSkipLink := hasSkipLink html
          headingStructure := headingStructure html } }

/-! ## Aggregator (`handler`): weighted total score

The handler computes
`Math.round(p*0.25 + s*0.25 + sec*0.20 + m*0.15 + a*0.15)` in IEEE-754
double precision.  Doubles in the range used here are dyadic rationals
with 53 significant bits; `Dy` represents them exactly as
`num * 2 ^ exp`, and `roundDy` is round-to-nearest-even at 53 bits
(no overflow or subnormals can occur for scores in `[0,100]`).  The
literals `0.25`, `0.20`, `0.15` denote the doubles nearest to those
decimals: `1/4`, `3602879701896397/2^54` and `5404319552844595/2^55`. -/

/-- An exact dyadic rational `num * 2 ^ exp`. -/
structure Dy where
  num : Int
  exp : Int
deriving Repr, DecidableEq

/-- The rational value of a dyadic. -/
def Dy.toQ (d : Dy) : ℚ := (d.num : ℚ) * (2 : ℚ) ^ d.exp

/-- Exact dyadic addition (align exponents, add mantissas). -/
def Dy.add (a b : Dy) : Dy :=
  let e := min a.exp b.exp
  ⟨a.num * 2 ^ (a.exp - e).toNat + b.num * 2 ^ (b.exp - e).toNat, e⟩

/-- Exact multiplication by a natural number. -/
def Dy.mulNat (k : Nat) (d : Dy) : Dy := ⟨(k : Int) * d.num, d.exp⟩

/-- Structural (fuel-based, kernel-evaluable) binary logarithm,
agreeing with `Nat.log2`. -/
def lg2F : Nat → Nat → Nat
  | 0, _ => 0
  | f + 1, n => if 2 ≤ n then lg2F f (n / 2) + 1 else 0

/-- `⌊log₂ n⌋` (0 at 0). -/
def lg2 (n : Nat) : Nat := lg2F n n

/-- Round `n / 2 ^ s` to the nearest integer, ties to even. -/
def rne53 (n s : Nat) : Nat :=
  let q := n / 2 ^ s
  let r := n % 2 ^ s
  let half := 2 ^ (s - 1)
  if r < half then q
  else if half < r then q + 1
  else if q % 2 = 0 then q else q + 1

/-- IEEE round-to-nearest-even at 53 significant bits of a non-negative
dyadic: if the mantissa needs more than 53 bits, shift it down with
`rne53`.  (Only ever applied to non-negative values here.) -/
def roundDy (d : Dy) : Dy :=
  let n := d.num.toNat
  let bl := if n = 0 then 0 else lg2 n + 1
  if bl ≤ 53 then d
  else
    let s := bl - 53
    ⟨(rne53 n s : Int), d.exp + s⟩

/-- The double `0.25` (exact). -/
def q25 : Dy := ⟨1, -2⟩

/-- The double `0.20`. -/
def q20 : Dy := ⟨3602879701896397, -54⟩

/-- The double `0.15`. -/
def q15 : Dy := ⟨5404319552844595, -55⟩

/-- A double product `fl(k * c)`. -/
def fTimes (k : Nat) (c : Dy) : Dy := roundDy (Dy.mulNat k c)

/-- A double sum `fl(a + b)`. -/
def fPlus (a b : Dy) : Dy := roundDy (Dy.add a b)

/-- The double evaluation of
`(p*0.25) + (s*0.25) + (c*0.20) + (m*0.15) + (a*0.15)` in the
handler's association order. -/
def totalDy (p s c m a : Nat) : Dy :=
  fPlus (fPlus (fPlus (fPlus (fTimes p q25) (fTimes s q25)) (fTimes c q20))
    (fTimes m q15)) (fTimes a q15)

/-- `Math.round` of a non-negative dyadic (round half toward `+∞`). -/
def jsRoundDy (d : Dy) : Int :=
  if 0 ≤ d.exp then d.num * 2 ^ d.exp.toNat
  else
    let k := (-d.exp).toNat
    ((2 * d.num.toNat + 2 ^ k) / 2 ^ (k + 1) : Nat)

/-- `totalScore` as the handler computes it, for category scores (each
analyzer score is clamped into `[0,100]`, hence natural). -/
def totalScore (p s c m a : Nat) : Int := jsRoundDy (totalDy p s c m a)

/-- The total score as the spec words it: `round` of the exact weighted
sum `performance×0.25 + seo×0.25 + security×0.20 + mobile×0.15 +
accessibility×0.15` in real arithmetic (the rational literals are
exact). -/
def specTotalScore (p s c m a : Nat) : Int :=
  round ((p : ℚ) * 0.25 + (s : ℚ) * 0.25 + (c : ℚ) * 0.20 +
    (m : ℚ) * 0.15 + (a : ℚ) * 0.15)

/-- `getStatus(score)`. -/
def getStatus (score : Int) : String :=
  if 90 ≤ score then "green"
  else if 70 ≤ score then "yellow"
  else if 50 ≤ score then "orange"
  else "red"

/-! ## Claim-side definitions and fixed test inputs -/

/-- Is an `Except` computation successful? -/
def isOkE (e : Except String α) : Bool :=
  match e with
  | .ok _ => true
  | .error _ => false

/-- The form-label deduction count as the specification words it
(`Modelled from the spec:` form inputs, excluding
hidden/submit/button/image types, without an associated
`<label for=id>` AND without `aria-label`/`aria-labelledby`): the
number of candidate inputs having neither, to be compared with the
difference of counts the source actually computes. -/
def claimedUnlabeledCountE (html : String) : Except String Nat :=
  (filterME (fun i => do
      let wo ← inputWithoutLabelE html.toList i
      pure (wo && !(subCI "aria-label=".toList i || subCI "aria-labelledby=".toList i)))
    (textInputs html)).map List.length

/-- The form-label penalty as the specification words it:
`min(12, unlabeled-count × 3)`. -/
def claimedFormPenaltyE (html : String) : Except String Nat :=
  (claimedUnlabeledCountE html).map (fun u => min 12 (u * 3))

/-- Six externally-sourced render-blocking script tags. -/
def c2html : String :=
  "<script src=\"https://cdn.example.com/a.js\"></script>" ++
  "<script src=\"https://cdn.example.com/b.js\"></script>" ++
  "<script src=\"https://cdn.example.com/c.js\"></script>" ++
  "<script src=\"https://cdn.example.com/d.js\"></script>" ++
  "<script src=\"https://cdn.example.com/e.js\"></script>" ++
  "<script src=\"https://cdn.example.com/f.js\"></script>"

/-- A form input whose id splices an unbalanced `(` into the label
regex. -/
def c4html : String := "<input id=\"(\">"

/-- One aria-labeled input that also has an associated label, plus one
unlabeled text input. -/
def c8html : String :=
  "<input id=\"a\" aria-label=\"x\"><label for=\"a\"></label><input type=\"text\">"

/-- The well-formedness of one finding under the amended shape: either
a positive finding (`type: 'success'`, no severity key) or an issue
(`severity` key among info/warning/critical, no type key). -/
def validFinding (f : Finding) : Prop :=
  (f.severity = none ∧ f.type = some "success") ∨
  (f.type = none ∧
    (f.severity = some "info" ∨ f.severity = some "warning" ∨ f.severity = some "critical"))

/-- All findings of a list are well-formed. -/
def AllV (l : List Finding) : Prop := ∀ f ∈ l, validFinding f

/-! # Lemmas and claim theorems -/

/-! ## Clamping -/

theorem clamp_bounds (x : Int) : 0 ≤ clamp x ∧ clamp x ≤ 100 := by
  unfold clamp; omega

theorem clamp_le {x b : Int} (hx : x ≤ b) (hb : 0 ≤ b) : clamp x ≤ b := by
  unfold clamp; omega

/-! ## The script extractor never captures a `src` -/

theorem scripts_src_none (html : String) :
    ∀ r ∈ (extractResources html).scripts, r.src = none := by
  intro r hr
  simp only [extractResources, List.mem_map] at hr
  obtain ⟨t, -, rfl⟩ := hr
  rfl

theorem thirdPartyCountE_aux (html : String) :
    ∀ (scripts : List ScriptRef) (n : Nat), (∀ r ∈ scripts, r.src = none) →
      scripts.foldlM (fun n s =>
        match s.src with
        | some src => do
          let host ← urlHostname html
          pure (if subCS host.toList src.toList then n else n + 1)
        | none => pure n) n = .ok n := by
  intro scripts
  induction scripts with
  | nil => intro n _; rfl
  | cons x xs ih =>
    intro n h
    have hx : x.src = none := h x (by simp)
    simp only [List.foldlM, hx]
    exact ih n (fun r hr => h r (by simp [hr]))

theorem thirdPartyCountE_ok (html : String) (scripts : List ScriptRef)
    (h : ∀ r ∈ scripts, r.src = none) :
    thirdPartyCountE scripts html = .ok 0 := by
  unfold thirdPartyCountE
  exact thirdPartyCountE_aux html scripts 0 h

theorem analyzePerformance_pipeline_ok (rt : Nat) (html : String) :
    analyzePerformance rt html (extractResources html) =
      .ok
        { score := clamp (perfScoreRaw rt html (extractResources html) 0)
          details := perfSuccesses rt ++ perfIssues rt html (extractResources html) 0
          metrics :=
            { responseTime := rt
              htmlSize := htmlKB html.length
              totalScripts := (extractResources html).scripts.length
              blockingScripts := blockingScriptCount (extractResources html).scripts
              totalStylesheets :=
                (extractResources html).stylesheets.length + (tagScan "<style" html).length
              totalImages := (extractResources html).images.length } } := by
  unfold analyzePerformance
  rw [thirdPartyCountE_ok html _ (scripts_src_none html)]
  rfl

/-! ## C1: every analyzer score is an integer in [0,100] -/

/-- C1: for every input (any response time, any HTML string, any
resource inventory, any header collection), each of the five analyzers
returns a score in `[0,100]`: every returned score is
`Math.max(0, Math.min(100, raw))`, so the clamp is never bypassed no
matter how negative the accumulated deductions go. -/
theorem c1_scores_in_range :
    (∀ (rt : Nat) (html : String) (res : Resources) (r : PerfResult),
      analyzePerformance rt html res = .ok r → 0 ≤ r.score ∧ r.score ≤ 100) ∧
    (∀ (html url : String),
      0 ≤ (analyzeSEO html url).score ∧ (analyzeSEO html url).score ≤ 100) ∧
    (∀ (p : String) (hs : List (String × String)) (html : String),
      0 ≤ (analyzeSecurity p hs html).score ∧ (analyzeSecurity p hs html).score ≤ 100) ∧
    (∀ html : String,
      0 ≤ (analyzeMobile html).score ∧ (analyzeMobile html).score ≤ 100) ∧
    (∀ (html : String) (r : AccResult),
      analyzeAccessibility html = .ok r → 0 ≤ r.score ∧ r.score ≤ 100) := by
  refine ⟨?_, ?_, ?_, ?_, ?_⟩
  · intro rt html res r h
    unfold analyzePerformance at h
    cases hE : thirdPartyCountE res.scripts html with
    | ok tp =>
      rw [hE] at h
      simp only [Bind.bind, Except.bind, Pure.pure, Except.pure, Except.ok.injEq] at h
      rw [← h]
      exact clamp_bounds _
    | error e => rw [hE] at h; exact absurd h (by simp [Bind.bind, Except.bind])
  · intro html url; exact clamp_bounds _
  · intro p hs html; exact clamp_bounds _
  · intro html; exact clamp_bounds _
  · intro html r h
    unfold analyzeAccessibility at h
    cases hE : inputsWithoutLabelE html with
    | ok l =>
      rw [hE] at h
      simp only [Bind.bind, Except.bind, Pure.pure, Except.pure, Except.ok.injEq] at h
      rw [← h]
      exact clamp_bounds _
    | error e => rw [hE] at h; exact absurd h (by simp [Bind.bind, Except.bind])

/-- Witness for C1 at concrete inputs. -/
theorem c1_scores_in_range_witness :
    (∃ r, analyzePerformance 0 "" (extractResources "") = .ok r ∧
      0 ≤ r.score ∧ r.score ≤ 100) ∧
    (0 ≤ (analyzeSEO "" "").score ∧ (analyzeSEO "" "").score ≤ 100) ∧
    (0 ≤ (analyzeSecurity "http:" [] "").score ∧ (analyzeSecurity "http:" [] "").score ≤ 100) ∧
    (0 ≤ (analyzeMobile "").score ∧ (analyzeMobile "").score ≤ 100) ∧
    (∃ r, analyzeAccessibility "" = .ok r ∧ 0 ≤ r.score ∧ r.score ≤ 100) := by
  refine ⟨?_, c1_scores_in_range.2.1 "" "", c1_scores_in_range.2.2.1 "http:" [] "",
    c1_scores_in_range.2.2.2.1 "", ?_⟩
  · cases hE : analyzePerformance 0 "" (extractResources "") with
    | ok r => exact ⟨r, rfl, c1_scores_in_range.1 0 "" (extractResources "") r hE⟩
    | error e =>
      have : isOkE (analyzePerformance 0 "" (extractResources "")) = true := by decide
      rw [hE] at this; exact absurd this (by simp [isOkE])
  · cases hE : analyzeAccessibility "" with
    | ok r => exact ⟨r, rfl, c1_scores_in_range.2.2.2.2 "" r hE⟩
    | error e =>
      have : isOkE (analyzeAccessibility "") = true := by decide
      rw [hE] at this; exact absurd this (by simp [isOkE])

/-! ## C5: plain-http pages can score at most 70 on security -/

/-- C5: with protocol `http:` the −30 HTTPS penalty always applies and
every other rule only subtracts, so the clamped security score is at
most 70 for every header collection and every HTML input. -/
theorem c5_http_security_at_most_70 (hs : List (String × String)) (html : String) :
    (analyzeSecurity "http:" hs html).score ≤ 70 := by
  show clamp (securityScoreRaw "http:" hs html) ≤ 70
  apply clamp_le _ (by norm_num)
  unfold securityScoreRaw
  have h30 : (if ("http:" : String) ≠ "https:" then (30 : Int) else 0) = 30 := by decide
  rw [h30]
  omega

/-! ## C2: the script `src` capture never fires (code bug) -/

set_option maxRecDepth 40000 in
/-- C2 (code bug exhibit): on six externally-sourced plain script tags
the extractor records every script with `src = null` and
`isInline = true` — the optional capture group of the script pattern
never participates in a match — so the render-blocking count is 0 and
no −12/−6 deduction can ever fire, where the claim (and the spec's
data model) expects `src` to equal the attribute value, `isInline`
false, and a −12 deduction for six blocking scripts. -/
theorem c2_script_src_never_captured :
    (extractResources c2html).scripts.length = 6 ∧
    ((extractResources c2html).scripts.all
      (fun s => s.src = none && s.isInline == true)) = true ∧
    blockingScriptCount (extractResources c2html).scripts = 0 ∧
    blockDed (blockingScriptCount (extractResources c2html).scripts) = 0 ∧
    ((extractResources c2html).scripts.any (fun s => s.src.isSome)) = false := by
  refine ⟨by decide, by decide, by decide, by decide, by decide⟩

/-! ## C4: totality of the pipeline (code bug in accessibility) -/

/-- C4 (code bug exhibit): the extractor and four analyzers are total,
and in particular the performance analyzer's third-party check — whose
`new URL(html)` call sits behind `s.src &&` over extracted scripts that
never carry a `src` — cannot throw for any HTML input; but the
accessibility analyzer is NOT total: an input id spliced verbatim into
the label `RegExp` can make the pattern ill-formed, and
`analyzeAccessibility` throws a `SyntaxError` on
`<input id="(">`, contradicting the never-raise / degrade-gracefully
claim. -/
theorem c4_pipeline_totality :
    (∀ (rt : Nat) (html : String),
      isOkE (analyzePerformance rt html (extractResources html)) = true) ∧
    isOkE (analyzeAccessibility c4html) = false := by
  constructor
  · intro rt html
    rw [analyzePerformance_pipeline_ok rt html]
    rfl
  · decide

/-! ## C7: documents with no image tags get no image penalties -/

/-- C7: when the document contains no `<img` tag match, the extracted
image inventory is empty, none of the image deductions of the
performance, SEO, mobile or accessibility analyzers fires, and every
image-related metric is zero. -/
theorem c7_no_images (html url : String) (h : tagScan "<img" html = []) :
    (extractResources html).images = [] ∧
    perfImgDed (extractResources html).images = 0 ∧
    (∀ (rt : Nat) (r : PerfResult),
      analyzePerformance rt html (extractResources html) = .ok r →
        r.metrics.totalImages = 0) ∧
    altDedSEO (seoImgsNoAlt html) = 0 ∧
    (analyzeSEO html url).metrics.imagesWithoutAlt = 0 ∧
    respImgDed (tagScan "<img" html).length (responsiveImages html) (pictureCount html) = 0 ∧
    (analyzeMobile html).metrics.responsiveImages = 0 ∧
    (analyzeMobile html).metrics.totalImages = 0 ∧
    altDedAcc (seoImgsNoAlt html) = 0 ∧
    (∀ r : AccResult, analyzeAccessibility html = .ok r →
      r.metrics.imagesWithoutAlt = 0) := by
  have himg : (extractResources html).images = [] := by
    simp [extractResources, h]
  have halt : seoImgsNoAlt html = 0 := by
    simp [seoImgsNoAlt, h]
  have hresp : responsiveImages html = 0 := by
    simp [responsiveImages, h]
  refine ⟨himg, ?_, ?_, ?_, ?_, ?_, ?_, ?_, ?_, ?_⟩
  · rw [himg]; rfl
  · intro rt r hr
    rw [analyzePerformance_pipeline_ok rt html] at hr
    simp only [Except.ok.injEq] at hr
    rw [← hr]
    show (extractResources html).images.length = 0
    rw [himg]; rfl
  · rw [halt]; rfl
  · show seoImgsNoAlt html = 0
    exact halt
  · rw [h, hresp]; rfl
  · show responsiveImages html = 0
    exact hresp
  · show (tagScan "<img" html).length = 0
    rw [h]; rfl
  · rw [halt]; rfl
  · intro r hr
    unfold analyzeAccessibility at hr
    cases hE : inputsWithoutLabelE html with
    | ok l =>
      rw [hE] at hr
      simp only [Bind.bind, Except.bind, Pure.pure, Except.pure, Except.ok.injEq] at hr
      rw [← hr]
      show seoImgsNoAlt html = 0
      exact halt
    | error e => rw [hE] at hr; exact absurd hr (by simp [Bind.bind, Except.bind])

/-- Witness for C7 at the empty document. -/
theorem c7_no_images_witness :
    (extractResources "").images = [] ∧
    perfImgDed (extractResources "").images = 0 ∧
    altDedSEO (seoImgsNoAlt "") = 0 ∧
    (analyzeSEO "" "").metrics.imagesWithoutAlt = 0 ∧
    respImgDed (tagScan "<img" "").length (responsiveImages "") (pictureCount "") = 0 ∧
    (analyzeMobile "").metrics.responsiveImages = 0 ∧
    (analyzeMobile "").metrics.totalImages = 0 ∧
    altDedAcc (seoImgsNoAlt "") = 0 := by
  have h := c7_no_images "" "" (by decide)
  exact ⟨h.1, h.2.1, h.2.2.2.1, h.2.2.2.2.1, h.2.2.2.2.2.1, h.2.2.2.2.2.2.1,
    h.2.2.2.2.2.2.2.1, h.2.2.2.2.2.2.2.2.1⟩

/-! ## C10: HSTS present without any max-age counts as configured -/

/-- C10 as amended: when `Strict-Transport-Security` is present with a
non-empty value that carries no `max-age` directive, the `maxAge`
match is null, so the `else` branch records the success finding and no
HSTS deduction applies — the absent directive is not treated as below
the one-year threshold.  (A present header with an empty-string value
is falsy in the `if (!hsts)` guard and is treated as missing instead;
see the counterexample.) -/
theorem c10_hsts_without_max_age (p : String) (hs : List (String × String))
    (html v : String)
    (h : hGet hs "strict-transport-security" = some v)
    (hv : v ≠ "")
    (hma : maxAgeCap v = none) :
    hstsDed (hGet hs "strict-transport-security") = 0 ∧
    successF "HSTS er korrekt konfigurert" ∈ (analyzeSecurity p hs html).details := by
  constructor
  · rw [h]; simp [hstsDed, hv, hma]
  · show _ ∈ securitySuccesses p hs ++ securityIssues p hs html
    apply List.mem_append_left
    unfold securitySuccesses
    rw [h]
    simp [optF, hv, hma]

/-- C10 counterexample: an HSTS header that is present in the
collection but with the empty string as value contains no `max-age`
directive, yet the analyzer does not record the success finding —
`!hsts` is true for the falsy empty string, so the header is treated
as missing: −12 and the missing-HSTS warning. -/
theorem c10_counterexample :
    hGet [("Strict-Transport-Security", "")] "strict-transport-security" = some "" ∧
    maxAgeCap "" = none ∧
    hstsDed (hGet [("Strict-Transport-Security", "")] "strict-transport-security") = 12 ∧
    issueF "warning" "Mangler HSTS-header (Strict-Transport-Security)" ∈
      (analyzeSecurity "https:" [("Strict-Transport-Security", "")] "").details ∧
    successF "HSTS er korrekt konfigurert" ∉
      (analyzeSecurity "https:" [("Strict-Transport-Security", "")] "").details := by
  refine ⟨by decide, by decide, by decide, by decide, by decide⟩

/-- Witness for the amended C10: an HSTS header consisting only of
`includeSubDomains`. -/
theorem c10_hsts_without_max_age_witness :
    hstsDed (hGet [("Strict-Transport-Security", "includeSubDomains")]
      "strict-transport-security") = 0 ∧
    successF "HSTS er korrekt konfigurert" ∈
      (analyzeSecurity "https:" [("Strict-Transport-Security", "includeSubDomains")] "").details :=
  c10_hsts_without_max_age "https:" _ "" "includeSubDomains" (by decide) (by decide) (by decide)

/-! ## C6: the no-security-headers score -/

/-- C6 counterexample: with an empty header collection but an HTML body
containing a mixed-content reference (`http://a`), the mixed-content
rule subtracts 5 more, so the score is 49, not the claimed
`100 − 46 = 54`, even though all four header metrics are false — the
claimed equality ignores the content-based deductions. -/
theorem c6_counterexample :
    (analyzeSecurity "https:" [] "http://a").headers.hsts = false ∧
    (analyzeSecurity "https:" [] "http://a").headers.csp = false ∧
    (analyzeSecurity "https:" [] "http://a").headers.xfo = false ∧
    (analyzeSecurity "https:" [] "http://a").headers.xcto = false ∧
    (analyzeSecurity "https:" [] "http://a").score = 49 ∧
    (analyzeSecurity "https:" [] "http://a").score ≠ 54 := by
  refine ⟨by decide, by decide, by decide, by decide, by decide, by decide⟩

/-- C6 as amended: with none of the inspected headers present and HTML
that triggers no content-based deduction (no mixed-content reference,
at most 3 e-mail occurrences, no form posting to plain http), the four
header metrics are false and the score is exactly
`100 − (12+10+8+6+4+4+2) = 54`, minus 30 more when the protocol is not
https (clamping is a no-op at these values). -/
theorem c6_amended (p : String) (hs : List (String × String)) (html : String)
    (h1 : hGet hs "strict-transport-security" = none)
    (h2 : hGet hs "content-security-policy" = none)
    (h3 : hGet hs "x-frame-options" = none)
    (h4 : hGet hs "x-content-type-options" = none)
    (h5 : hGet hs "referrer-policy" = none)
    (h6 : hGet hs "permissions-policy" = none)
    (h7 : hGet hs "feature-policy" = none)
    (h8 : hGet hs "x-xss-protection" = none)
    (h9 : hGet hs "server" = none)
    (h10 : hGet hs "x-powered-by" = none)
    (hm : mixedCount html = 0)
    (he : emailCount html ≤ 3)
    (hf : httpFormCount html = 0) :
    (analyzeSecurity p hs html).headers.hsts = false ∧
    (analyzeSecurity p hs html).headers.csp = false ∧
    (analyzeSecurity p hs html).headers.xfo = false ∧
    (analyzeSecurity p hs html).headers.xcto = false ∧
    (analyzeSecurity p hs html).score = if p = "https:" then 54 else 24 := by
  refine ⟨by simp [analyzeSecurity, h1, falsyH], by simp [analyzeSecurity, h2, falsyH],
    by simp [analyzeSecurity, h3, falsyH], by simp [analyzeSecurity, h4, falsyH], ?_⟩
  show clamp (securityScoreRaw p hs html) = _
  unfold securityScoreRaw
  rw [h1, h2, h3, h4, h5, h6, h7, h8, h9, h10, hm, hf]
  have hE : (if 3 < emailCount html then (2 : Int) else 0) = 0 := by
    rw [if_neg]; omega
  rw [hE]
  simp only [hstsDed, cspDed, xfoDed, cspFrameAncestors, falsyH, serverDed,
    Bool.not_false, Bool.and_self, if_true, Bool.false_eq_true, if_false]
  by_cases hp : p = "https:"
  · simp [hp, clamp]
  · simp [hp, clamp]

/-- Witness for the amended C6 at the empty header collection and empty
document over https. -/
theorem c6_amended_witness :
    (analyzeSecurity "https:" [] "").headers.hsts = false ∧
    (analyzeSecurity "https:" [] "").headers.csp = false ∧
    (analyzeSecurity "https:" [] "").headers.xfo = false ∧
    (analyzeSecurity "https:" [] "").headers.xcto = false ∧
    (analyzeSecurity "https:" [] "").score = if "https:" = "https:" then 54 else 24 :=
  c6_amended "https:" [] "" (by decide) (by decide) (by decide) (by decide)
    (by decide) (by decide) (by decide) (by decide) (by decide) (by decide)
    (by decide) (by decide) (by decide)

/-! ## C8: the form-label deduction -/

/-- C8 as amended: the form-label deduction the analyzer applies equals
`min(12, 3 × (w − r))` where `w` is the count of candidate inputs
without an associated label (`inputsWithoutLabel.length`) and `r` the
count of candidate inputs carrying `aria-label`/`aria-labelledby`
(truncated subtraction: no deduction when `r ≥ w`) — not
`min(12, 3 × u)` for `u` the count of inputs with neither. -/
theorem c8_form_label_deduction (html : String) (l : List (List Char))
    (h : inputsWithoutLabelE html = .ok l) :
    analyzeAccessibility html =
      .ok
        { score := clamp (accScoreRaw html l.length)
          details := accSuccesses html ++ accIssues html l.length
          metrics :=
            { hasLang := (htmlLangCap html).isSome
              imagesWithoutAlt := seoImgsNoAlt html
              landmarks := landmarkCount html
              hasSkipLink := hasSkipLink html
              headingStructure := headingStructure html } } ∧
    formPenalty l.length (ariaLabeledCount html) =
      min 12 ((l.length - ariaLabeledCount html) * 3) := by
  constructor
  · unfold analyzeAccessibility; rw [h]; rfl
  · unfold formPenalty
    rcases Nat.lt_or_ge (ariaLabeledCount html) l.length with hlt | hge
    · rw [if_pos hlt, if_pos (by omega)]
    · rw [if_neg (by omega)]
      have h0 : l.length - ariaLabeledCount html = 0 := by omega
      rw [h0]
      simp

/-- C8 counterexample: one input with both an associated label and an
aria-label plus one input with neither.  The source's count difference
gives `w = 1`, `r = 1`, hence no deduction, while the claimed
neither-count is 1 and would demand a deduction of 3. -/
theorem c8_counterexample :
    (inputsWithoutLabelE c8html).map
      (fun l => formPenalty l.length (ariaLabeledCount c8html)) = .ok 0 ∧
    claimedFormPenaltyE c8html = .ok 3 := by
  exact ⟨rfl, rfl⟩

/-- Witness for the amended C8 at the empty document. -/
theorem c8_form_label_deduction_witness :
    formPenalty (List.length ([] : List (List Char))) (ariaLabeledCount "") =
      min 12 ((List.length ([] : List (List Char)) - ariaLabeledCount "") * 3) :=
  (c8_form_label_deduction "" [] rfl).2


/-! ## C9: the shape of findings -/

theorem vSucc (m : String) : validFinding (successF m) := Or.inl ⟨rfl, rfl⟩

theorem vInfo (m : String) : validFinding (issueF "info" m) :=
  Or.inr ⟨rfl, Or.inl rfl⟩

theorem vWarn (m : String) : validFinding (issueF "warning" m) :=
  Or.inr ⟨rfl, Or.inr (Or.inl rfl)⟩

theorem vCrit (m : String) : validFinding (issueF "critical" m) :=
  Or.inr ⟨rfl, Or.inr (Or.inr rfl)⟩

theorem allV_nil : AllV [] := by intro f hf; cases hf

theorem allV_single {x : Finding} (h : validFinding x) : AllV [x] := by
  intro f hf
  rw [List.mem_singleton] at hf
  rw [hf]; exact h

theorem allV_append {l1 l2 : List Finding} (h1 : AllV l1) (h2 : AllV l2) :
    AllV (l1 ++ l2) := by
  intro f hf
  rcases List.mem_append.1 hf with h | h
  exacts [h1 f h, h2 f h]

theorem allV_optF {b : Bool} {x : Finding} (h : validFinding x) : AllV (optF b x) := by
  unfold optF; split
  exacts [allV_single h, allV_nil]

theorem allV_ite {c : Prop} [Decidable c] {l1 l2 : List Finding}
    (h1 : AllV l1) (h2 : AllV l2) : AllV (if c then l1 else l2) := by
  by_cases hc : c
  · rw [if_pos hc]; exact h1
  · rw [if_neg hc]; exact h2

set_option maxHeartbeats 1000000 in
theorem allV_perfIssues (rt : Nat) (html : String) (res : Resources) (tp : Nat) :
    AllV (perfIssues rt html res tp) := by
  unfold perfIssues
  simp only [List.append_assoc]
  refine allV_append (allV_ite (allV_single (vCrit _)) (allV_ite (allV_single (vWarn _)) (allV_ite (allV_single (vInfo _)) allV_nil))) ?_
  refine allV_append (allV_ite (allV_single (vCrit _)) (allV_ite (allV_single (vWarn _)) (allV_ite (allV_single (vInfo _)) allV_nil))) ?_
  refine allV_append (allV_ite (allV_single (vCrit _)) (allV_ite (allV_single (vWarn _)) allV_nil)) ?_
  refine allV_append (allV_ite (allV_single (vWarn _)) (allV_ite (allV_single (vInfo _)) allV_nil)) ?_
  refine allV_append (allV_ite (allV_single (vWarn _)) (allV_ite (allV_single (vInfo _)) allV_nil)) ?_
  refine allV_append (allV_optF (vWarn _)) ?_
  refine allV_append (allV_ite (allV_append (allV_optF (vWarn _)) (allV_append (allV_optF (vWarn _)) (allV_append (allV_optF (vInfo _)) (allV_optF (vInfo _))))) allV_nil) ?_
  refine allV_append (allV_optF (vInfo _)) ?_
  refine allV_append (allV_optF (vInfo _)) ?_
  refine allV_append (allV_optF (vWarn _)) ?_
  exact allV_optF (vInfo _)

theorem allV_perfSuccesses (rt : Nat) : AllV (perfSuccesses rt) := by
  unfold perfSuccesses
  exact allV_optF (vSucc _)

set_option maxHeartbeats 1000000 in
theorem allV_seoIssues (html : String) : AllV (seoIssues html) := by
  unfold seoIssues
  simp only [List.append_assoc]
  refine allV_append ?_ ?_
  · rcases seoTitle html with _ | t
    · exact allV_single (vCrit _)
    · exact allV_append (allV_ite (allV_single (vWarn _)) (allV_ite (allV_single (vWarn _)) allV_nil)) (allV_optF (vInfo _))
  refine allV_append ?_ ?_
  · rcases metaDescCap html with _ | v
    · exact allV_single (vCrit _)
    · exact allV_ite (allV_single (vWarn _)) (allV_ite (allV_single (vInfo _)) allV_nil)
  refine allV_append (allV_ite (allV_single (vCrit _)) (allV_ite (allV_single (vWarn _)) allV_nil)) ?_
  refine allV_append (allV_optF (vInfo _)) ?_
  refine allV_append (allV_optF (vWarn _)) ?_
  refine allV_append (allV_ite (allV_single (vWarn _)) (allV_ite (allV_single (vInfo _)) allV_nil)) ?_
  refine allV_append (allV_optF (vInfo _)) ?_
  refine allV_append (allV_optF (vWarn _)) ?_
  refine allV_append (allV_optF (vInfo _)) ?_
  refine allV_append (allV_optF (vInfo _)) ?_
  refine allV_append (allV_optF (vWarn _)) ?_
  exact allV_optF (vInfo _)

set_option maxHeartbeats 1000000 in
theorem allV_seoSuccesses (html : String) : AllV (seoSuccesses html) := by
  unfold seoSuccesses
  simp only [List.append_assoc]
  refine allV_append ?_ ?_
  · rcases seoTitle html with _ | t
    · exact allV_nil
    · exact allV_optF (vSucc _)
  refine allV_append ?_ ?_
  · rcases metaDescCap html with _ | v
    · exact allV_nil
    · exact allV_optF (vSucc _)
  refine allV_append (allV_optF (vSucc _)) ?_
  refine allV_append (allV_optF (vSucc _)) ?_
  exact allV_append (allV_optF (vSucc _)) (allV_optF (vSucc _))

set_option maxHeartbeats 1000000 in
theorem allV_securityIssues (p : String) (hs : List (String × String)) (html : String) :
    AllV (securityIssues p hs html) := by
  unfold securityIssues
  simp only [List.append_assoc]
  refine allV_append (allV_optF (vCrit _)) ?_
  refine allV_append ?_ ?_
  · rcases hGet hs "strict-transport-security" with _ | v
    · exact allV_single (vWarn _)
    · exact allV_ite (allV_single (vWarn _))
        (allV_append (allV_optF (vInfo _)) (allV_optF (vInfo _)))
  refine allV_append ?_ ?_
  · rcases hGet hs "content-security-policy" with _ | v
    · exact allV_single (vWarn _)
    · exact allV_ite (allV_single (vWarn _))
        (allV_append (allV_optF (vInfo _)) (allV_optF (vInfo _)))
  refine allV_append (allV_optF (vWarn _)) ?_
  refine allV_append (allV_optF (vWarn _)) ?_
  refine allV_append (allV_optF (vInfo _)) ?_
  refine allV_append (allV_optF (vInfo _)) ?_
  refine allV_append (allV_optF (vInfo _)) ?_
  refine allV_append (allV_optF (vWarn _)) ?_
  refine allV_append (allV_optF (vInfo _)) ?_
  refine allV_append (allV_optF (vCrit _)) ?_
  refine allV_append (allV_optF (vInfo _)) ?_
  refine allV_append (allV_optF (vInfo _)) ?_
  exact allV_optF (vInfo _)

set_option maxHeartbeats 1000000 in
theorem allV_securitySuccesses (p : String) (hs : List (String × String)) :
    AllV (securitySuccesses p hs) := by
  unfold securitySuccesses
  simp only [List.append_assoc]
  refine allV_append (allV_optF (vSucc _)) ?_
  refine allV_append ?_ ?_
  · rcases hGet hs "strict-transport-security" with _ | v
    · exact allV_nil
    · exact allV_ite allV_nil (allV_optF (vSucc _))
  refine allV_append (allV_optF (vSucc _)) ?_
  exact allV_append (allV_optF (vSucc _)) (allV_optF (vSucc _))

set_option maxHeartbeats 1000000 in
theorem allV_mobileIssues (html : String) : AllV (mobileIssues html) := by
  unfold mobileIssues
  simp only [List.append_assoc]
  refine allV_append ?_ ?_
  · rcases viewportCap html with _ | vp
    · exact allV_single (vCrit _)
    · exact allV_append (allV_optF (vWarn _)) (allV_append (allV_optF (vWarn _)) (allV_optF (vInfo _)))
  refine allV_append (allV_optF (vWarn _)) ?_
  refine allV_append (allV_optF (vInfo _)) ?_
  refine allV_append (allV_ite (allV_single (vWarn _)) (allV_ite (allV_single (vInfo _)) allV_nil)) ?_
  refine allV_append (allV_ite (allV_single (vWarn _)) (allV_ite (allV_single (vInfo _)) allV_nil)) ?_
  refine allV_append (allV_optF (vWarn _)) ?_
  refine allV_append (allV_optF (vInfo _)) ?_
  refine allV_append (allV_optF (vInfo _)) ?_
  refine allV_append (allV_optF (vInfo _)) ?_
  exact allV_optF (vInfo _)

set_option maxHeartbeats 1000000 in
theorem allV_mobileSuccesses (html : String) : AllV (mobileSuccesses html) := by
  unfold mobileSuccesses
  simp only [List.append_assoc]
  refine allV_append ?_ ?_
  · rcases viewportCap html with _ | vp
    · exact allV_nil
    · exact allV_optF (vSucc _)
  exact allV_append (allV_optF (vSucc _)) (allV_optF (vSucc _))

set_option maxHeartbeats 1000000 in
theorem allV_accIssues (html : String) (wo : Nat) : AllV (accIssues html wo) := by
  unfold accIssues
  simp only [List.append_assoc]
  refine allV_append (allV_optF (vWarn _)) ?_
  refine allV_append (allV_optF (vWarn _)) ?_
  refine allV_append (allV_ite (allV_optF (vWarn _)) allV_nil) ?_
  refine allV_append (allV_optF (vWarn _)) ?_
  refine allV_append ?_ ?_
  · rcases findHeadingSkip 0 (headingCounts html) with _ | ⟨last, lvl⟩
    · exact allV_nil
    · exact allV_single (vInfo _)
  refine allV_append (allV_optF (vWarn _)) ?_
  refine allV_append (allV_optF (vInfo _)) ?_
  refine allV_append (allV_optF (vInfo _)) ?_
  refine allV_append (allV_optF (vWarn _)) ?_
  refine allV_append (allV_optF (vInfo _)) ?_
  refine allV_append (allV_optF (vWarn _)) ?_
  refine allV_append (allV_optF (vWarn _)) ?_
  exact allV_optF (vInfo _)

set_option maxHeartbeats 1000000 in
theorem allV_accSuccesses (html : String) : AllV (accSuccesses html) := by
  unfold accSuccesses
  simp only [List.append_assoc]
  refine allV_append ?_ ?_
  · rcases htmlLangCap html with _ | v
    · exact allV_nil
    · exact allV_single (vSucc _)
  exact allV_append (allV_optF (vSucc _)) (allV_optF (vSucc _))

/-- C9 as amended: every finding of every analyzer carries either a
`severity` key with value among info/warning/critical (the issues) or a
`type: 'success'` key and no severity key (the positive findings); the
details sequence lists the success findings in their insertion order
followed by the issues in their insertion order — not the global
insertion order of the run. -/
theorem c9_finding_shapes :
    (∀ (rt : Nat) (html : String) (res : Resources) (r : PerfResult),
      analyzePerformance rt html res = .ok r → ∀ f ∈ r.details, validFinding f) ∧
    (∀ html url : String, ∀ f ∈ (analyzeSEO html url).details, validFinding f) ∧
    (∀ (p : String) (hs : List (String × String)) (html : String),
      ∀ f ∈ (analyzeSecurity p hs html).details, validFinding f) ∧
    (∀ html : String, ∀ f ∈ (analyzeMobile html).details, validFinding f) ∧
    (∀ (html : String) (r : AccResult),
      analyzeAccessibility html = .ok r → ∀ f ∈ r.details, validFinding f) := by
  refine ⟨?_, ?_, ?_, ?_, ?_⟩
  · intro rt html res r h
    unfold analyzePerformance at h
    cases hE : thirdPartyCountE res.scripts html with
    | ok tp =>
      rw [hE] at h
      simp only [Bind.bind, Except.bind, Pure.pure, Except.pure, Except.ok.injEq] at h
      rw [← h]
      exact allV_append (allV_perfSuccesses rt) (allV_perfIssues rt html res tp)
    | error e => rw [hE] at h; exact absurd h (by simp [Bind.bind, Except.bind])
  · intro html url
    exact allV_append (allV_seoSuccesses html) (allV_seoIssues html)
  · intro p hs html
    exact allV_append (allV_securitySuccesses p hs) (allV_securityIssues p hs html)
  · intro html
    exact allV_append (allV_mobileSuccesses html) (allV_mobileIssues html)
  · intro html r h
    unfold analyzeAccessibility at h
    cases hE : inputsWithoutLabelE html with
    | ok l =>
      rw [hE] at h
      simp only [Bind.bind, Except.bind, Pure.pure, Except.pure, Except.ok.injEq] at h
      rw [← h]
      exact allV_append (allV_accSuccesses html) (allV_accIssues html l.length)
    | error e => rw [hE] at h; exact absurd h (by simp [Bind.bind, Except.bind])

/-- C9 counterexample: the head of the security details on a bare https
response is the success finding, which carries no `severity` key at all
(`severity = none`) — so not every finding carries a severity value —
and on a plain-http response whose HSTS header is valid, the success
finding pushed chronologically after the critical https issue still
appears first, so the sequence is not in global insertion order. -/
theorem c9_counterexample :
    (analyzeSecurity "https:" [] "").details.head? = some (successF "HTTPS er aktivert") ∧
    (successF "HTTPS er aktivert").severity = none ∧
    (analyzeSecurity "http:"
        [("Strict-Transport-Security", "max-age=63072000")] "").details.head? =
      some (successF "HSTS er korrekt konfigurert") := by
  refine ⟨by decide, rfl, by decide⟩

/-- Witness for C9 at a concrete analyzer output and member finding. -/
theorem c9_finding_shapes_witness :
    validFinding (successF "HTTPS er aktivert") :=
  c9_finding_shapes.2.2.1 "https:" [] "" (successF "HTTPS er aktivert") (by decide)

/-! ## C3 support: dyadic rounding error -/

theorem lg2F_eq_log2 : ∀ (f n : Nat), n ≤ f → lg2F f n = Nat.log2 n := by
  intro f
  induction f with
  | zero =>
    intro n hn
    have h0 : n = 0 := by omega
    subst h0
    show (0 : Nat) = Nat.log2 0
    conv_rhs => rw [Nat.log2]
    norm_num
  | succ f ih =>
    intro n hn
    rw [lg2F]
    rcases Nat.lt_or_ge n 2 with h2 | h2
    · rw [if_neg (by omega)]
      unfold Nat.log2
      rw [if_neg (by omega)]
    · rw [if_pos (by omega)]
      rw [ih (n / 2) (by omega)]
      conv_rhs => rw [Nat.log2]
      rw [if_pos (by omega)]

theorem lg2_eq (n : Nat) : lg2 n = Nat.log2 n := lg2F_eq_log2 n n le_rfl

theorem lg2_bounds (n : Nat) (h : n ≠ 0) :
    2 ^ lg2 n ≤ n ∧ n < 2 ^ (lg2 n + 1) := by
  rw [lg2_eq]
  exact ⟨Nat.log2_self_le h, Nat.lt_log2_self⟩

theorem rne53_err (n s : Nat) (hs : 0 < s) :
    rne53 n s * 2 ^ s ≤ n + 2 ^ (s - 1) ∧ n ≤ rne53 n s * 2 ^ s + 2 ^ (s - 1) := by
  simp only [rne53]
  have hdm := Nat.div_add_mod n (2 ^ s)
  have hr : n % 2 ^ s < 2 ^ s := Nat.mod_lt _ (Nat.pos_pow_of_pos s (by omega))
  have h2 : 2 ^ s = 2 * 2 ^ (s - 1) := by
    cases s with
    | zero => omega
    | succ t => rw [pow_succ]; ring_nf; simp [Nat.succ_sub_one]
  repeat' split
  all_goals (ring_nf at hdm ⊢; omega)

theorem toQ_nonneg (d : Dy) (h : 0 ≤ d.num) : 0 ≤ d.toQ := by
  unfold Dy.toQ
  have h2 : (0:ℚ) < (2:ℚ) ^ d.exp := zpow_pos (by norm_num) _
  have hc : (0:ℚ) ≤ (d.num : ℚ) := by exact_mod_cast h
  nlinarith

theorem toQ_mulNat (k : Nat) (d : Dy) : (Dy.mulNat k d).toQ = k * d.toQ := by
  unfold Dy.toQ Dy.mulNat
  push_cast
  ring

theorem toQ_add (a b : Dy) : (Dy.add a b).toQ = a.toQ + b.toQ := by
  unfold Dy.toQ Dy.add
  have h2 : (2:ℚ) ≠ 0 := by norm_num
  push_cast
  rw [add_mul]
  congr 1
  · rw [mul_assoc, ← zpow_natCast (2:ℚ) (a.exp - min a.exp b.exp).toNat,
      ← zpow_add₀ h2, Int.toNat_of_nonneg (by omega : (0:ℤ) ≤ a.exp - min a.exp b.exp)]
    congr 2
    omega
  · rw [mul_assoc, ← zpow_natCast (2:ℚ) (b.exp - min a.exp b.exp).toNat,
      ← zpow_add₀ h2, Int.toNat_of_nonneg (by omega : (0:ℤ) ≤ b.exp - min a.exp b.exp)]
    congr 2
    omega

theorem mulNat_num_nonneg {k : Nat} {d : Dy} (hd : 0 ≤ d.num) :
    0 ≤ (Dy.mulNat k d).num := by
  unfold Dy.mulNat
  exact mul_nonneg (Int.natCast_nonneg k) hd

theorem add_num_nonneg {a b : Dy} (ha : 0 ≤ a.num) (hb : 0 ≤ b.num) :
    0 ≤ (Dy.add a b).num := by
  unfold Dy.add
  have p1 : (0:ℤ) ≤ 2 ^ (a.exp - min a.exp b.exp).toNat := pow_nonneg (by norm_num) _
  have p2 : (0:ℤ) ≤ 2 ^ (b.exp - min a.exp b.exp).toNat := pow_nonneg (by norm_num) _
  exact add_nonneg (mul_nonneg ha p1) (mul_nonneg hb p2)

theorem roundDy_num_nonneg (d : Dy) (h : 0 ≤ d.num) : 0 ≤ (roundDy d).num := by
  simp only [roundDy]
  repeat' split
  all_goals first
    | exact h
    | exact Int.natCast_nonneg _

theorem roundDy_err (d : Dy) (h : 0 ≤ d.num) :
    |(roundDy d).toQ - d.toQ| ≤ d.toQ / 2 ^ 53 := by
  have hq : (0:ℚ) ≤ d.toQ := toQ_nonneg d h
  simp only [roundDy]
  split
  · rw [if_pos (by norm_num : (0:ℕ) ≤ 53)]
    simp only [sub_self, abs_zero]
    positivity
  · rename_i hn0
    split
    · simp only [sub_self, abs_zero]
      positivity
    · rename_i hbl
      set n := d.num.toNat with hn
      set s := lg2 n + 1 - 53 with hsdef
      have hs : 0 < s := by omega
      have hlg : 2 ^ lg2 n ≤ n := (lg2_bounds n hn0).1
      have hrne := rne53_err n s hs
      have hnum : (d.num : ℚ) = (n : ℚ) := by
        exact_mod_cast (Int.toNat_of_nonneg h).symm
      show |(((rne53 n s : ℤ) : ℚ)) * (2:ℚ) ^ (d.exp + (s:ℤ)) - (d.num : ℚ) * (2:ℚ) ^ d.exp|
          ≤ (d.num : ℚ) * (2:ℚ) ^ d.exp / 2 ^ 53
      have h2 : (2:ℚ) ≠ 0 := by norm_num
      have hzz : (2:ℚ) ^ (d.exp + (s:ℤ)) = (2:ℚ) ^ d.exp * (2:ℚ) ^ (s:ℤ) := zpow_add₀ h2 _ _
      have hsz : (2:ℚ) ^ (s:ℤ) = ((2 ^ s : ℕ) : ℚ) := by
        rw [zpow_natCast]
        push_cast
        ring
      have hpos : (0:ℚ) < (2:ℚ) ^ d.exp := zpow_pos (by norm_num) _
      rw [hzz, hsz, hnum]
      have key : |((rne53 n s : ℚ)) * ((2 ^ s : ℕ) : ℚ) - (n : ℚ)| ≤ ((2 ^ (s - 1) : ℕ) : ℚ) := by
        rw [abs_le]
        constructor
        · have h1 : (n : ℚ) ≤ (rne53 n s : ℚ) * ((2 ^ s : ℕ) : ℚ) + ((2 ^ (s - 1) : ℕ) : ℚ) := by
            exact_mod_cast hrne.2
          linarith
        · have h1 : (rne53 n s : ℚ) * ((2 ^ s : ℕ) : ℚ) ≤ (n : ℚ) + ((2 ^ (s - 1) : ℕ) : ℚ) := by
            exact_mod_cast hrne.1
          linarith
      have hfac : ((rne53 n s : ℤ) : ℚ) * ((2:ℚ) ^ d.exp * ((2 ^ s : ℕ) : ℚ)) - (n : ℚ) * (2:ℚ) ^ d.exp
          = ((rne53 n s : ℚ) * ((2 ^ s : ℕ) : ℚ) - (n : ℚ)) * (2:ℚ) ^ d.exp := by
        push_cast
        ring
      rw [hfac, abs_mul, abs_of_pos hpos]
      have hbound : ((2 ^ (s - 1) : ℕ) : ℚ) * (2:ℚ) ^ d.exp ≤ (n : ℚ) * (2:ℚ) ^ d.exp / 2 ^ 53 := by
        rw [le_div_iff₀ (by positivity : (0:ℚ) < (2:ℚ) ^ 53)]
        have hns : 2 ^ (s - 1) * 2 ^ 53 ≤ n := by
          calc 2 ^ (s - 1) * 2 ^ 53 = 2 ^ (s - 1 + 53) := by rw [pow_add]
            _ = 2 ^ lg2 n := by congr 1; omega
            _ ≤ n := hlg
        have hns2 : ((2 ^ (s - 1) : ℕ) : ℚ) * (2:ℚ) ^ 53 ≤ (n : ℚ) := by
          exact_mod_cast hns
        nlinarith [hpos.le]
      calc |(rne53 n s : ℚ) * ((2 ^ s : ℕ) : ℚ) - (n : ℚ)| * (2:ℚ) ^ d.exp
          ≤ ((2 ^ (s - 1) : ℕ) : ℚ) * (2:ℚ) ^ d.exp :=
            mul_le_mul_of_nonneg_right key (le_of_lt hpos)
        _ ≤ (n : ℚ) * (2:ℚ) ^ d.exp / 2 ^ 53 := hbound

theorem roundDy_close (d : Dy) (h : 0 ≤ d.num) (B : ℚ) (hB : d.toQ ≤ B) :
    d.toQ - B / 2 ^ 53 ≤ (roundDy d).toQ ∧ (roundDy d).toQ ≤ d.toQ + B / 2 ^ 53 := by
  have he := roundDy_err d h
  rw [abs_le] at he
  have hmono : d.toQ / 2 ^ 53 ≤ B / 2 ^ 53 := by gcongr
  constructor <;> linarith

theorem q25_toQ : q25.toQ = 1/4 := by
  unfold q25 Dy.toQ
  norm_num

theorem q20_toQ : q20.toQ = 3602879701896397 / 2 ^ 54 := by
  unfold q20 Dy.toQ
  rw [show ((-54 : ℤ)) = -(54 : ℕ) by rfl, zpow_neg, zpow_natCast]
  norm_num

theorem q15_toQ : q15.toQ = 5404319552844595 / 2 ^ 55 := by
  unfold q15 Dy.toQ
  rw [show ((-55 : ℤ)) = -(55 : ℕ) by rfl, zpow_neg, zpow_natCast]
  norm_num

theorem jsRoundDy_eq (d : Dy) (h : 0 ≤ d.num) :
    jsRoundDy d = ⌊d.toQ + 1/2⌋ := by
  unfold jsRoundDy
  split
  · rename_i hexp
    have hv : d.toQ = ((d.num * 2 ^ d.exp.toNat : ℤ) : ℚ) := by
      unfold Dy.toQ
      push_cast
      congr 1
      rw [← zpow_natCast (2:ℚ) d.exp.toNat, Int.toNat_of_nonneg hexp]
    rw [hv]
    symm
    rw [Int.floor_eq_iff]
    constructor
    · linarith
    · push_cast
      linarith
  · rename_i hexp
    dsimp only
    have hk : d.exp = -((-d.exp).toNat : ℤ) := by omega
    set k := (-d.exp).toNat with hkdef
    set n := d.num.toNat with hn
    have hnum : (d.num : ℚ) = (n : ℚ) := by
      exact_mod_cast (Int.toNat_of_nonneg h).symm
    have hv : d.toQ = (n : ℚ) / 2 ^ k := by
      unfold Dy.toQ
      rw [hnum, hk, zpow_neg, zpow_natCast]
      ring
    have hA : ((2 * n + 2 ^ k) / 2 ^ (k + 1)) * 2 ^ (k + 1) ≤ 2 * n + 2 ^ k :=
      Nat.div_mul_le_self (2 * n + 2 ^ k) (2 ^ (k + 1))
    have hB : 2 * n + 2 ^ k < ((2 * n + 2 ^ k) / 2 ^ (k + 1) + 1) * 2 ^ (k + 1) := by
      have hdm := Nat.div_add_mod (2 * n + 2 ^ k) (2 ^ (k + 1))
      have hr : (2 * n + 2 ^ k) % 2 ^ (k + 1) < 2 ^ (k + 1) :=
        Nat.mod_lt _ (Nat.pos_pow_of_pos _ (by omega))
      calc 2 * n + 2 ^ k = 2 ^ (k + 1) * ((2 * n + 2 ^ k) / 2 ^ (k + 1))
              + (2 * n + 2 ^ k) % 2 ^ (k + 1) := hdm.symm
        _ < 2 ^ (k + 1) * ((2 * n + 2 ^ k) / 2 ^ (k + 1)) + 2 ^ (k + 1) := by omega
        _ = ((2 * n + 2 ^ k) / 2 ^ (k + 1) + 1) * 2 ^ (k + 1) := by ring
    symm
    rw [Int.floor_eq_iff]
    have hq : d.toQ + 1/2 = ((2 * n + 2 ^ k : ℕ) : ℚ) / 2 ^ (k + 1) := by
      rw [hv]
      push_cast
      field_simp
      ring
    constructor
    · rw [hq, le_div_iff₀ (by positivity : (0:ℚ) < 2 ^ (k + 1))]
      exact_mod_cast hA
    · rw [hq, div_lt_iff₀ (by positivity : (0:ℚ) < 2 ^ (k + 1))]
      exact_mod_cast hB

/-- The double-precision evaluation of the weighted sum stays within
`500/2^53` of the exact rational `(5p+5s+4c+3m+3a)/20`, and its mantissa
is non-negative, for category scores in `[0,100]`. -/
theorem totalDy_close (p s c m a : Nat) (hp : p ≤ 100) (hs : s ≤ 100)
    (hc : c ≤ 100) (hm : m ≤ 100) (ha : a ≤ 100) :
    0 ≤ (totalDy p s c m a).num ∧
    |(totalDy p s c m a).toQ -
      ((5 * p + 5 * s + 4 * c + 3 * m + 3 * a : ℕ) : ℚ) / 20| ≤ 500 / 2 ^ 53 := by
  have hpQ : (p : ℚ) ≤ 100 := by exact_mod_cast hp
  have hsQ : (s : ℚ) ≤ 100 := by exact_mod_cast hs
  have hcQ : (c : ℚ) ≤ 100 := by exact_mod_cast hc
  have hmQ : (m : ℚ) ≤ 100 := by exact_mod_cast hm
  have haQ : (a : ℚ) ≤ 100 := by exact_mod_cast ha
  have hp0 : (0:ℚ) ≤ (p : ℚ) := Nat.cast_nonneg p
  have hs0 : (0:ℚ) ≤ (s : ℚ) := Nat.cast_nonneg s
  have hc0 : (0:ℚ) ≤ (c : ℚ) := Nat.cast_nonneg c
  have hm0 : (0:ℚ) ≤ (m : ℚ) := Nat.cast_nonneg m
  have ha0 : (0:ℚ) ≤ (a : ℚ) := Nat.cast_nonneg a
  have h25n : (0:ℤ) ≤ q25.num := by norm_num [q25]
  have h20n : (0:ℤ) ≤ q20.num := by norm_num [q20]
  have h15n : (0:ℤ) ≤ q15.num := by norm_num [q15]
  have htot : totalDy p s c m a
      = fPlus (fPlus (fPlus (fPlus (fTimes p q25) (fTimes s q25)) (fTimes c q20))
          (fTimes m q15)) (fTimes a q15) := rfl
  rw [htot]
  set t1 := fTimes p q25 with ht1
  set t2 := fTimes s q25 with ht2
  set b2 := fPlus t1 t2 with hb2
  set c1 := fTimes c q20 with hc1
  set s1 := fPlus b2 c1 with hs1
  set m1 := fTimes m q15 with hm1d
  set s2 := fPlus s1 m1 with hs2
  set a1 := fTimes a q15 with ha1
  set s3 := fPlus s2 a1 with hs3
  have hv1 : (Dy.mulNat p q25).toQ = (p:ℚ) * (1/4) := by rw [toQ_mulNat, q25_toQ]
  have hv2 : (Dy.mulNat s q25).toQ = (s:ℚ) * (1/4) := by rw [toQ_mulNat, q25_toQ]
  have hv3 : (Dy.mulNat c q20).toQ = (c:ℚ) * (3602879701896397 / 2 ^ 54) := by
    rw [toQ_mulNat, q20_toQ]
  have hv4 : (Dy.mulNat m q15).toQ = (m:ℚ) * (5404319552844595 / 2 ^ 55) := by
    rw [toQ_mulNat, q15_toQ]
  have hv5 : (Dy.mulNat a q15).toQ = (a:ℚ) * (5404319552844595 / 2 ^ 55) := by
    rw [toQ_mulNat, q15_toQ]
  have hnn1 : 0 ≤ (Dy.mulNat p q25).num := mulNat_num_nonneg h25n
  have hnn2 : 0 ≤ (Dy.mulNat s q25).num := mulNat_num_nonneg h25n
  have hnn3 : 0 ≤ (Dy.mulNat c q20).num := mulNat_num_nonneg h20n
  have hnn4 : 0 ≤ (Dy.mulNat m q15).num := mulNat_num_nonneg h15n
  have hnn5 : 0 ≤ (Dy.mulNat a q15).num := mulNat_num_nonneg h15n
  have n1 : 0 ≤ t1.num := roundDy_num_nonneg _ hnn1
  have n2 : 0 ≤ t2.num := roundDy_num_nonneg _ hnn2
  have n3 : 0 ≤ c1.num := roundDy_num_nonneg _ hnn3
  have n4 : 0 ≤ m1.num := roundDy_num_nonneg _ hnn4
  have n5 : 0 ≤ a1.num := roundDy_num_nonneg _ hnn5
  have e1 : (p:ℚ) * (1/4) - 25 / 2 ^ 53 ≤ t1.toQ ∧
      t1.toQ ≤ (p:ℚ) * (1/4) + 25 / 2 ^ 53 := by
    have h := roundDy_close (Dy.mulNat p q25) hnn1 25 (by rw [hv1]; linarith)
    rw [hv1] at h
    exact h
  have e2 : (s:ℚ) * (1/4) - 25 / 2 ^ 53 ≤ t2.toQ ∧
      t2.toQ ≤ (s:ℚ) * (1/4) + 25 / 2 ^ 53 := by
    have h := roundDy_close (Dy.mulNat s q25) hnn2 25 (by rw [hv2]; linarith)
    rw [hv2] at h
    exact h
  have hvB : (Dy.add t1 t2).toQ = t1.toQ + t2.toQ := toQ_add _ _
  have hnnB : 0 ≤ (Dy.add t1 t2).num := add_num_nonneg n1 n2
  have eB : t1.toQ + t2.toQ - 52 / 2 ^ 53 ≤ b2.toQ ∧
      b2.toQ ≤ t1.toQ + t2.toQ + 52 / 2 ^ 53 := by
    have h := roundDy_close (Dy.add t1 t2) hnnB 52
      (by rw [hvB]; linarith [e1.2, e2.2])
    rw [hvB] at h
    exact h
  have nB : 0 ≤ b2.num := roundDy_num_nonneg _ hnnB
  have e3 : (c:ℚ) * (3602879701896397 / 2 ^ 54) - 21 / 2 ^ 53 ≤ c1.toQ ∧
      c1.toQ ≤ (c:ℚ) * (3602879701896397 / 2 ^ 54) + 21 / 2 ^ 53 := by
    have h := roundDy_close (Dy.mulNat c q20) hnn3 21 (by rw [hv3]; linarith)
    rw [hv3] at h
    exact h
  have hvS1 : (Dy.add b2 c1).toQ = b2.toQ + c1.toQ := toQ_add _ _
  have hnnS1 : 0 ≤ (Dy.add b2 c1).num := add_num_nonneg nB n3
  have eS1 : b2.toQ + c1.toQ - 75 / 2 ^ 53 ≤ s1.toQ ∧
      s1.toQ ≤ b2.toQ + c1.toQ + 75 / 2 ^ 53 := by
    have h := roundDy_close (Dy.add b2 c1) hnnS1 75
      (by rw [hvS1]; linarith [eB.2, e3.2, e1.2, e2.2])
    rw [hvS1] at h
    exact h
  have nS1 : 0 ≤ s1.num := roundDy_num_nonneg _ hnnS1
  have e4 : (m:ℚ) * (5404319552844595 / 2 ^ 55) - 16 / 2 ^ 53 ≤ m1.toQ ∧
      m1.toQ ≤ (m:ℚ) * (5404319552844595 / 2 ^ 55) + 16 / 2 ^ 53 := by
    have h := roundDy_close (Dy.mulNat m q15) hnn4 16 (by rw [hv4]; linarith)
    rw [hv4] at h
    exact h
  have hvS2 : (Dy.add s1 m1).toQ = s1.toQ + m1.toQ := toQ_add _ _
  have hnnS2 : 0 ≤ (Dy.add s1 m1).num := add_num_nonneg nS1 n4
  have eS2 : s1.toQ + m1.toQ - 93 / 2 ^ 53 ≤ s2.toQ ∧
      s2.toQ ≤ s1.toQ + m1.toQ + 93 / 2 ^ 53 := by
    have h := roundDy_close (Dy.add s1 m1) hnnS2 93
      (by rw [hvS2]; linarith [eS1.2, e4.2, eB.2, e3.2, e1.2, e2.2])
    rw [hvS2] at h
    exact h
  have nS2 : 0 ≤ s2.num := roundDy_num_nonneg _ hnnS2
  have e5 : (a:ℚ) * (5404319552844595 / 2 ^ 55) - 16 / 2 ^ 53 ≤ a1.toQ ∧
      a1.toQ ≤ (a:ℚ) * (5404319552844595 / 2 ^ 55) + 16 / 2 ^ 53 := by
    have h := roundDy_close (Dy.mulNat a q15) hnn5 16 (by rw [hv5]; linarith)
    rw [hv5] at h
    exact h
  have hvS3 : (Dy.add s2 a1).toQ = s2.toQ + a1.toQ := toQ_add _ _
  have hnnS3 : 0 ≤ (Dy.add s2 a1).num := add_num_nonneg nS2 n5
  have eS3 : s2.toQ + a1.toQ - 111 / 2 ^ 53 ≤ s3.toQ ∧
      s3.toQ ≤ s2.toQ + a1.toQ + 111 / 2 ^ 53 := by
    have h := roundDy_close (Dy.add s2 a1) hnnS3 111
      (by rw [hvS3]; linarith [eS2.2, e5.2, eS1.2, e4.2, eB.2, e3.2, e1.2, e2.2])
    rw [hvS3] at h
    exact h
  have nS3 : 0 ≤ s3.num := roundDy_num_nonneg _ hnnS3
  refine ⟨nS3, ?_⟩
  have hNcast : ((5 * p + 5 * s + 4 * c + 3 * m + 3 * a : ℕ) : ℚ)
      = 5 * (p:ℚ) + 5 * (s:ℚ) + 4 * (c:ℚ) + 3 * (m:ℚ) + 3 * (a:ℚ) := by
    push_cast
    ring
  rw [hNcast]
  have hiden : (p:ℚ) * (1/4) + (s:ℚ) * (1/4) + (c:ℚ) * (3602879701896397 / 2 ^ 54)
      + (m:ℚ) * (5404319552844595 / 2 ^ 55) + (a:ℚ) * (5404319552844595 / 2 ^ 55)
      - (5 * (p:ℚ) + 5 * (s:ℚ) + 4 * (c:ℚ) + 3 * (m:ℚ) + 3 * (a:ℚ)) / 20
      = (c:ℚ) * (1 / (5 * 2 ^ 54)) - (m:ℚ) * (1 / (5 * 2 ^ 55))
        - (a:ℚ) * (1 / (5 * 2 ^ 55)) := by
    ring
  rw [abs_le]
  constructor
  · linarith [eS3.1, eS2.1, eS1.1, eB.1, e1.1, e2.1, e3.1, e4.1, e5.1, hiden]
  · linarith [eS3.2, eS2.2, eS1.2, eB.2, e1.2, e2.2, e3.2, e4.2, e5.2, hiden]

/-! ## C3: the weighted total score -/

/-- C3 as amended: the handler's `totalScore` — `Math.round` applied to
the IEEE-754 double evaluation of
`p*0.25 + s*0.25 + c*0.20 + m*0.15 + a*0.15` — equals the exact
`round((5p+5s+4c+3m+3a)/20)` of the claim whenever the weighted sum is
not exactly halfway between two integers, i.e. whenever
`(5p+5s+4c+3m+3a) % 20 ≠ 10`; at half-integer boundaries the
floating-point evaluation can land on the other side (see the
counterexample). -/
theorem c3_amended (p s c m a : Nat) (hp : p ≤ 100) (hs : s ≤ 100)
    (hc : c ≤ 100) (hm : m ≤ 100) (ha : a ≤ 100)
    (hmod : (5 * p + 5 * s + 4 * c + 3 * m + 3 * a) % 20 ≠ 10) :
    totalScore p s c m a = specTotalScore p s c m a := by
  obtain ⟨hnum, herr⟩ := totalDy_close p s c m a hp hs hc hm ha
  rw [abs_le] at herr
  set N := 5 * p + 5 * s + 4 * c + 3 * m + 3 * a with hNdef
  set Kn := (N + 10) / 20 with hKdef
  have hub : 20 / 2 ^ 53 * 500 ≤ (1:ℚ) := by norm_num
  have hlow : (Kn:ℚ) * 20 + 1 ≤ (N:ℚ) + 10 := by
    exact_mod_cast (by omega : Kn * 20 + 1 ≤ N + 10)
  have hhigh : (N:ℚ) + 10 ≤ (Kn:ℚ) * 20 + 19 := by
    exact_mod_cast (by omega : N + 10 ≤ Kn * 20 + 19)
  have h2 : specTotalScore p s c m a = ⌊(N:ℚ) / 20 + 1/2⌋ := by
    unfold specTotalScore
    rw [round_eq]
    congr 1
    rw [hNdef]
    push_cast
    norm_num
    ring
  have hfloor1 : ⌊(totalDy p s c m a).toQ + 1/2⌋ = (Kn:ℤ) := by
    rw [Int.floor_eq_iff]
    push_cast
    constructor
    · linarith [herr.1]
    · linarith [herr.2]
  have hfloor2 : ⌊(N:ℚ) / 20 + 1/2⌋ = (Kn:ℤ) := by
    rw [Int.floor_eq_iff]
    push_cast
    constructor
    · linarith
    · linarith
  unfold totalScore
  rw [jsRoundDy_eq _ hnum, h2, hfloor1, hfloor2]

/-- C3 counterexample: at category scores `(0, 0, 0, 1, 9)` the exact
weighted sum is `1.5`, so the claimed `round` gives `2`, but the double
evaluation of `1*0.15 + 9*0.15` falls just below `1.5` (the double
`0.15` is slightly below `3/20`) and `Math.round` returns `1`. -/
theorem c3_counterexample :
    totalScore 0 0 0 1 9 = 1 ∧ specTotalScore 0 0 0 1 9 = 2 := by
  constructor
  · decide
  · unfold specTotalScore
    rw [round_eq]
    norm_num

/-- Witness for the amended C3 at all-100 category scores (the weighted
sum is exactly 100, far from a half-integer boundary). -/
theorem c3_amended_witness :
    (100 ≤ 100 ∧ (5 * 100 + 5 * 100 + 4 * 100 + 3 * 100 + 3 * 100) % 20 ≠ 10) ∧
    totalScore 100 100 100 100 100 = specTotalScore 100 100 100 100 100 :=
  ⟨⟨by decide, by decide⟩,
    c3_amended 100 100 100 100 100 (by decide) (by decide) (by decide)
      (by decide) (by decide) (by decide)⟩
